import Mathlib

/-!
Shallow embedding of the `aioairzone` library (Airzone Local API client).

Definitions are translated from the Python sources under `src/aioairzone/`:
  * `common.py`   - enumerated value types and their permissive decoders
                    (each enum's `_missing_` hook is folded into a total
                    `ofInt`/`ofString` decoding function),
  * `zone.py`     - the `Zone` entity: payload merge (`update_data`),
                    temperature fix-ups and getters, mode list derivation,
  * `system.py`   - the `System` entity (availability and the mode-list
                    store used by master/slave propagation),
  * `localapi.py` - the reconciliation core: poll merge (`update`,
                    `parse_system_zones`, `update_system_from_zone`,
                    `update_zones_from_master_zone`), empty-response
                    handling, vendor error dispatch (`handle_errors`) and
                    PUT feedback validation (`set_hvac_parameters`),
  * `localapi_device.py` - the legacy revision's PUT feedback validation
                    (`put_hvac`).

Modelling conventions:
  * Python floats are modelled as rationals; `round(x, 1)` is modelled by
    `pyRound1` (round half to even, Python's rounding mode).
  * Python dicts keyed by id are modelled as insertion-ordered association
    lists with first-match lookup and first-match in-place update.
  * Exceptions are modelled by the `AzErr` sum type; functions that can
    raise return `Except AzErr _` or pair their (partially mutated) state
    with `Option AzErr`.
  * Fields of the Python objects that no theorem below mentions (names,
    thermostat data, demand flags, sleep/speed, error accumulation, raw
    data caches, HTTP plumbing) are not modelled; none of them feeds back
    into the modelled fields.
-/

namespace Aioairzone

/-! ## Value model (`common.py`) -/

/-- Airzone stages (`AirzoneStages`, common.py). -/
inductive AirzoneStages where
  | UNKNOWN
  | Off
  | Air
  | Radiant
  | Combined
deriving DecidableEq, Repr

/-- Integer decoding of `AirzoneStages`: member values 0..3, any other
value resolves through `_missing_` to `UNKNOWN` (never raises). -/
def AirzoneStages.ofInt (n : Int) : AirzoneStages :=
  if n = -1 then .UNKNOWN
  else if n = 0 then .Off
  else if n = 1 then .Air
  else if n = 2 then .Radiant
  else if n = 3 then .Combined
  else .UNKNOWN

/-- `AirzoneStages.exists` (common.py): stage exists when it is not `Off`. -/
def AirzoneStages.stageExists (s : AirzoneStages) : Bool :=
  s != .Off

/-- `AirzoneStages.to_list` (common.py). -/
def AirzoneStages.to_list (s : AirzoneStages) : List AirzoneStages :=
  if s = .Combined then
    [.Off, .Air, .Radiant, .Combined]
  else if s = .Air ∨ s = .Radiant then
    [.Off, s]
  else
    []

/-- Airzone Eco-Adapt (`EcoAdapt`, common.py), a string-valued enum. -/
inductive EcoAdapt where
  | OFF
  | MANUAL
  | A
  | A_PLUS
  | A_PLUS_PLUS
deriving DecidableEq, Repr

/-- String decoding of `EcoAdapt`: `_missing_` resolves any unknown string
to `OFF`. -/
def EcoAdapt.ofString (s : String) : EcoAdapt :=
  if s = "off" then .OFF
  else if s = "manual" then .MANUAL
  else if s = "a" then .A
  else if s = "a_p" then .A_PLUS
  else if s = "a_pp" then .A_PLUS_PLUS
  else .OFF

/-- Airzone grille angles (`GrilleAngle`, common.py). -/
inductive GrilleAngle where
  | DEG_90
  | DEG_50
  | DEG_45
  | DEG_40
deriving DecidableEq, Repr

/-- Integer decoding of `GrilleAngle`: member values 0..3, `_missing_`
resolves anything else to `DEG_90`. -/
def GrilleAngle.ofInt (n : Int) : GrilleAngle :=
  if n = 0 then .DEG_90
  else if n = 1 then .DEG_50
  else if n = 2 then .DEG_45
  else if n = 3 then .DEG_40
  else .DEG_90

/-- Airzone operation modes (`OperationMode`, common.py). -/
inductive OperationMode where
  | UNKNOWN
  | STOP
  | COOLING
  | HEATING
  | FAN
  | DRY
  | AUX_HEATING
  | AUTO
deriving DecidableEq, Repr

/-- Integer decoding of `OperationMode`: member values 1..7 (plus -1 for
`UNKNOWN`), `_missing_` resolves anything else to `UNKNOWN`. -/
def OperationMode.ofInt (n : Int) : OperationMode :=
  if n = -1 then .UNKNOWN
  else if n = 1 then .STOP
  else if n = 2 then .COOLING
  else if n = 3 then .HEATING
  else if n = 4 then .FAN
  else if n = 5 then .DRY
  else if n = 6 then .AUX_HEATING
  else if n = 7 then .AUTO
  else .UNKNOWN

/-- Airzone Hot Water operations (`HotWaterOperation`, common.py). -/
inductive HotWaterOperation where
  | UNKNOWN
  | Off
  | On
  | Powerful
deriving DecidableEq, Repr

/-- Integer decoding of `HotWaterOperation`: member values 0..2 (plus -1),
`_missing_` resolves anything else to `UNKNOWN`. -/
def HotWaterOperation.ofInt (n : Int) : HotWaterOperation :=
  if n = -1 then .UNKNOWN
  else if n = 0 then .Off
  else if n = 1 then .On
  else if n = 2 then .Powerful
  else .UNKNOWN

/-- Airzone sleep timeouts (`SleepTimeout`, common.py). -/
inductive SleepTimeout where
  | SLEEP_OFF
  | SLEEP_30
  | SLEEP_60
  | SLEEP_90
deriving DecidableEq, Repr

/-- Integer decoding of `SleepTimeout`: member values 0/30/60/90,
`_missing_` resolves anything else to `SLEEP_OFF`. -/
def SleepTimeout.ofInt (n : Int) : SleepTimeout :=
  if n = 0 then .SLEEP_OFF
  else if n = 30 then .SLEEP_30
  else if n = 60 then .SLEEP_60
  else if n = 90 then .SLEEP_90
  else .SLEEP_OFF

/-- Airzone system types (`SystemType`, common.py). -/
inductive SystemType where
  | UNKNOWN
  | C6
  | AQUAGLASS
  | DZK
  | RADIANT
  | C3
  | ZBS
  | ZS6
deriving DecidableEq, Repr

/-- Integer decoding of `SystemType`: member values 1..7 (plus -1),
`_missing_` resolves anything else to `UNKNOWN`. -/
def SystemType.ofInt (n : Int) : SystemType :=
  if n = -1 then .UNKNOWN
  else if n = 1 then .C6
  else if n = 2 then .AQUAGLASS
  else if n = 3 then .DZK
  else if n = 4 then .RADIANT
  else if n = 5 then .C3
  else if n = 6 then .ZBS
  else if n = 7 then .ZS6
  else .UNKNOWN

/-- Airzone thermostat types (`ThermostatType`, common.py). -/
inductive ThermostatType where
  | UNKNOWN
  | Blueface
  | BluefaceZero
  | Lite
  | Think
deriving DecidableEq, Repr

/-- Integer decoding of `ThermostatType`: member values 1..4 (plus -1),
`_missing_` resolves anything else to `UNKNOWN`. -/
def ThermostatType.ofInt (n : Int) : ThermostatType :=
  if n = -1 then .UNKNOWN
  else if n = 1 then .Blueface
  else if n = 2 then .BluefaceZero
  else if n = 3 then .Lite
  else if n = 4 then .Think
  else .UNKNOWN

/-- Airzone WebServer types (`WebServerType`, common.py). -/
inductive WebServerType where
  | UNKNOWN
  | AIRZONE
  | AIDOO
deriving DecidableEq, Repr

/-- Integer decoding of `WebServerType`: member values 1..2 (plus -1),
`_missing_` resolves anything else to `UNKNOWN`. -/
def WebServerType.ofInt (n : Int) : WebServerType :=
  if n = -1 then .UNKNOWN
  else if n = 1 then .AIRZONE
  else if n = 2 then .AIDOO
  else .UNKNOWN

/-- Airzone temperature units (`TemperatureUnit`, common.py).  This enum has
no `_missing_` hook in the source; payloads are modelled as already
carrying a valid unit. -/
inductive TemperatureUnit where
  | CELSIUS
  | FAHRENHEIT
deriving DecidableEq, Repr

end Aioairzone

namespace Aioairzone

/-! ## Temperature arithmetic

Python floats are modelled as rationals.  `round(x, 1)` rounds half to
even (Python's rounding mode), modelled by `pyRound1`. -/

/-- Round a rational to the nearest integer, ties to even (Python `round`). -/
def roundHalfEven (y : ℚ) : ℤ :=
  let f := ⌊y⌋
  let r := y - (f : ℚ)
  if r < 1/2 then f
  else if r > 1/2 then f + 1
  else if f % 2 = 0 then f else f + 1

/-- `round(x, 1)`: round to one decimal place, ties to even. -/
def pyRound1 (x : ℚ) : ℚ :=
  (roundHalfEven (10 * x) : ℚ) / 10

/-- `API_BUG_MAX_TEMP_FAH` (const.py). -/
def API_BUG_MAX_TEMP_FAH : ℚ := 140

/-- `API_BUG_MIN_TEMP_FAH` (const.py). -/
def API_BUG_MIN_TEMP_FAH : ℚ := 32

/-- `DEFAULT_TEMP_MAX_CELSIUS` (const.py). -/
def DEFAULT_TEMP_MAX_CELSIUS : ℚ := 30

/-- `DEFAULT_TEMP_MAX_FAHRENHEIT` (const.py). -/
def DEFAULT_TEMP_MAX_FAHRENHEIT : ℚ := 86

/-- `DEFAULT_TEMP_MIN_CELSIUS` (const.py). -/
def DEFAULT_TEMP_MIN_CELSIUS : ℚ := 15

/-- `DEFAULT_TEMP_MIN_FAHRENHEIT` (const.py). -/
def DEFAULT_TEMP_MIN_FAHRENHEIT : ℚ := 60

/-- The Fahrenheit scale fix-up of `Zone.fix_max_temp` (zone.py): a max
temperature at or above 140 is divided by 10, one at or below 32 is
multiplied by 10. -/
def scaleFixMax (unit : TemperatureUnit) (maxTemp : ℚ) : ℚ :=
  if unit = .FAHRENHEIT then
    if maxTemp ≥ API_BUG_MAX_TEMP_FAH then maxTemp / 10
    else if maxTemp ≤ API_BUG_MIN_TEMP_FAH then maxTemp * 10
    else maxTemp
  else maxTemp

/-- The zero-substitution of `Zone.fix_max_temp` (zone.py): a (scale-fixed)
max temperature of exactly 0 becomes the unit-specific default. -/
def defaultSubMax (unit : TemperatureUnit) (maxTemp : ℚ) : ℚ :=
  if maxTemp = 0 then
    if unit = .FAHRENHEIT then DEFAULT_TEMP_MAX_FAHRENHEIT
    else DEFAULT_TEMP_MAX_CELSIUS
  else maxTemp

/-- `Zone.fix_max_temp` (zone.py): Fahrenheit scale fix, zero substitution,
then rounding to one decimal place. -/
def fix_max_temp (unit : TemperatureUnit) (maxTemp : ℚ) : ℚ :=
  pyRound1 (defaultSubMax unit (scaleFixMax unit maxTemp))

/-- The Fahrenheit scale fix-up of `Zone.fix_min_temp` (zone.py): a min
temperature at or below 32 is multiplied by 10 (no division branch). -/
def scaleFixMin (unit : TemperatureUnit) (minTemp : ℚ) : ℚ :=
  if unit = .FAHRENHEIT then
    if minTemp ≤ API_BUG_MIN_TEMP_FAH then minTemp * 10
    else minTemp
  else minTemp

/-- The zero-substitution of `Zone.fix_min_temp` (zone.py). -/
def defaultSubMin (unit : TemperatureUnit) (minTemp : ℚ) : ℚ :=
  if minTemp = 0 then
    if unit = .FAHRENHEIT then DEFAULT_TEMP_MIN_FAHRENHEIT
    else DEFAULT_TEMP_MIN_CELSIUS
  else minTemp

/-- `Zone.fix_min_temp` (zone.py). -/
def fix_min_temp (unit : TemperatureUnit) (minTemp : ℚ) : ℚ :=
  pyRound1 (defaultSubMin unit (scaleFixMin unit minTemp))

/-! ## Zone entity (`zone.py`) -/

/-- The modelled slice of a zone payload (one element of the HVAC
response's `data` array).  `none` models "key absent from the JSON
object"; `systemID`/`zoneID` are read with a default of 0 by the parser
(`zone_data.get(API_SYSTEM_ID, 0)`), hence optional here too.  Fields the
claims never touch (name, thermostat data, demand flags, stages, sleep,
speed, errors, humidity, eco-adapt, angles) are omitted; none of them
feeds the modelled fields. -/
structure ZoneData where
  systemID : Option Int := none
  zoneID : Option Int := none
  onFlag : Bool := false
  roomTemp : ℚ := 0
  maxTemp : ℚ := 0
  minTemp : ℚ := 0
  units : TemperatureUnit := .CELSIUS
  masterZoneID : Option Int := none
  mode : Option Int := none
  modes : Option (List Int) := none
  coolmaxtemp : Option ℚ := none
  coolmintemp : Option ℚ := none
  coolsetpoint : Option ℚ := none
  heatmaxtemp : Option ℚ := none
  heatmintemp : Option ℚ := none
  heatsetpoint : Option ℚ := none
  setpoint : Option ℚ := none
deriving DecidableEq, Repr

/-- The modelled slice of `Zone` (zone.py). -/
structure Zone where
  available : Bool
  master : Bool
  masterZone : Option Int
  mode : OperationMode
  modes : List OperationMode
  id : Int
  systemId : Int
  tempUnit : TemperatureUnit
  temp : ℚ
  temp_max : ℚ
  temp_min : ℚ
  temp_set : Option ℚ
  isOn : Bool
  cool_temp_max : Option ℚ
  cool_temp_min : Option ℚ
  cool_temp_set : Option ℚ
  heat_temp_max : Option ℚ
  heat_temp_min : Option ℚ
  heat_temp_set : Option ℚ
deriving DecidableEq, Repr

/-- `Zone.validate_temp_set` (zone.py): a new set temperature is accepted
unless the given maximum is present, non-zero and exceeded. -/
def validate_temp_set (temp_set : ℚ) (max_val : Option ℚ) : Option ℚ :=
  match max_val with
  | some m => if m ≠ 0 then (if temp_set ≤ m then some temp_set else none) else some temp_set
  | none => some temp_set

/-- The unconditional head of `Zone.update_data` (zone.py): availability,
master classification (`API_MODES in zone_data`), on flag, room
temperature, temperature bounds and unit. -/
def updCore (z : Zone) (d : ZoneData) : Zone :=
  { z with
    available := true
    master := d.modes.isSome
    isOn := d.onFlag
    temp := d.roomTemp
    temp_max := d.maxTemp
    temp_min := d.minTemp
    tempUnit := d.units }

/-- The `API_MASTER_ZONE_ID` step of `Zone.update_data`: a declared master
zone id is stored unless it names the zone itself. -/
def updMasterZone (z : Zone) (d : ZoneData) : Zone :=
  match d.masterZoneID with
  | some m => if m ≠ z.id then { z with masterZone := some m } else z
  | none => z

/-- The `API_COOL_MAX_TEMP` step of `Zone.update_data`. -/
def updCoolMax (z : Zone) (d : ZoneData) : Zone :=
  match d.coolmaxtemp with
  | some v => { z with cool_temp_max := some v }
  | none => z

/-- The `API_COOL_MIN_TEMP` step of `Zone.update_data`. -/
def updCoolMin (z : Zone) (d : ZoneData) : Zone :=
  match d.coolmintemp with
  | some v => { z with cool_temp_min := some v }
  | none => z

/-- The `API_COOL_SET_POINT` step of `Zone.update_data`: the new cooling
setpoint is validated against the (just updated) cooling maximum; a
rejected value leaves the stored setpoint unchanged. -/
def updCoolSet (z : Zone) (d : ZoneData) : Zone :=
  match d.coolsetpoint with
  | some t =>
    match validate_temp_set t z.cool_temp_max with
    | some v => { z with cool_temp_set := some v }
    | none => z
  | none => z

/-- The `API_HEAT_MAX_TEMP` step of `Zone.update_data`. -/
def updHeatMax (z : Zone) (d : ZoneData) : Zone :=
  match d.heatmaxtemp with
  | some v => { z with heat_temp_max := some v }
  | none => z

/-- The `API_HEAT_MIN_TEMP` step of `Zone.update_data`. -/
def updHeatMin (z : Zone) (d : ZoneData) : Zone :=
  match d.heatmintemp with
  | some v => { z with heat_temp_min := some v }
  | none => z

/-- The `API_HEAT_SET_POINT` step of `Zone.update_data`. -/
def updHeatSet (z : Zone) (d : ZoneData) : Zone :=
  match d.heatsetpoint with
  | some t =>
    match validate_temp_set t z.heat_temp_max with
    | some v => { z with heat_temp_set := some v }
    | none => z
  | none => z

/-- The `API_MODE` step of `Zone.update_data`: an absent `mode` key forces
the zone master with mode `AUTO` and mode list `[AUTO]`. -/
def updMode (z : Zone) (d : ZoneData) : Zone :=
  match d.mode with
  | some m => { z with mode := OperationMode.ofInt m }
  | none => { z with master := true, mode := .AUTO, modes := [.AUTO] }

/-- The `API_MODES` step of `Zone.update_data`: a master zone decodes its
payload mode list. -/
def updModes (z : Zone) (d : ZoneData) : Zone :=
  if z.master then
    match d.modes with
    | some ms => { z with modes := ms.map OperationMode.ofInt }
    | none => z
  else z

/-- The `API_SET_POINT` step of `Zone.update_data`: the new set temperature
is validated against the (just updated) maximum. -/
def updSetpoint (z : Zone) (d : ZoneData) : Zone :=
  match d.setpoint with
  | some t =>
    match validate_temp_set t (some z.temp_max) with
    | some v => { z with temp_set := some v }
    | none => z
  | none => z

/-- `Zone.update_data` (zone.py), restricted to the modelled fields: the
per-key steps above, applied in the source's assignment order. -/
def Zone.update_data (z : Zone) (d : ZoneData) : Zone :=
  updSetpoint (updModes (updMode (updHeatSet (updHeatMin (updHeatMax
    (updCoolSet (updCoolMin (updCoolMax (updMasterZone (updCore z d) d) d) d) d) d) d) d) d) d) d

/-- `Zone.__init__` (zone.py): default field values followed by
`update_data` on the constructor payload. -/
def Zone.init (system_id zone_id : Int) (d : ZoneData) : Zone :=
  Zone.update_data
    { available := true
      master := false
      masterZone := none
      mode := .UNKNOWN
      modes := []
      id := zone_id
      systemId := system_id
      tempUnit := .CELSIUS
      temp := 0
      temp_max := 0
      temp_min := 0
      temp_set := none
      isOn := false
      cool_temp_max := none
      cool_temp_min := none
      cool_temp_set := none
      heat_temp_max := none
      heat_temp_min := none
      heat_temp_set := none } d

/-- `Zone.get_modes` (zone.py): the stored mode list (falling back to the
single stored mode when empty), with `STOP` appended when absent. -/
def Zone.get_modes (z : Zone) : List OperationMode :=
  let modes := if z.modes.length = 0 then [z.mode] else z.modes
  if OperationMode.STOP ∈ modes then modes else modes ++ [OperationMode.STOP]

/-- `Zone.get_temp_max` (zone.py). -/
def Zone.get_temp_max (z : Zone) : ℚ :=
  fix_max_temp z.tempUnit z.temp_max

/-- `Zone.get_temp_min` (zone.py). -/
def Zone.get_temp_min (z : Zone) : ℚ :=
  fix_min_temp z.tempUnit z.temp_min

/-- `Zone.get_cool_temp_max` (zone.py). -/
def Zone.get_cool_temp_max (z : Zone) : Option ℚ :=
  match z.cool_temp_max with
  | some v => some (fix_max_temp z.tempUnit v)
  | none => none

/-- `Zone.get_cool_temp_min` (zone.py). -/
def Zone.get_cool_temp_min (z : Zone) : Option ℚ :=
  match z.cool_temp_min with
  | some v => some (fix_min_temp z.tempUnit v)
  | none => none

/-- `Zone.get_cool_temp_set` (zone.py): `if self.cool_temp_set:` - a stored
`None` or a stored 0.0 both yield `None`. -/
def Zone.get_cool_temp_set (z : Zone) : Option ℚ :=
  match z.cool_temp_set with
  | some v => if v ≠ 0 then some (pyRound1 v) else none
  | none => none

/-- `Zone.get_heat_temp_max` (zone.py). -/
def Zone.get_heat_temp_max (z : Zone) : Option ℚ :=
  match z.heat_temp_max with
  | some v => some (fix_max_temp z.tempUnit v)
  | none => none

/-- `Zone.get_heat_temp_min` (zone.py). -/
def Zone.get_heat_temp_min (z : Zone) : Option ℚ :=
  match z.heat_temp_min with
  | some v => some (fix_min_temp z.tempUnit v)
  | none => none

/-- `Zone.get_heat_temp_set` (zone.py): same falsiness test as the cooling
variant. -/
def Zone.get_heat_temp_set (z : Zone) : Option ℚ :=
  match z.heat_temp_set with
  | some v => if v ≠ 0 then some (pyRound1 v) else none
  | none => none

/-- `Zone.get_temp_set` (zone.py): `None` only when the stored value is
`None` (an explicit `is not None` test, unlike the cool/heat variants). -/
def Zone.get_temp_set (z : Zone) : Option ℚ :=
  match z.temp_set with
  | some v => some (pyRound1 v)
  | none => none

/-- Python `max` over a (non-empty) list of rationals. -/
def maxList : List ℚ → ℚ
  | [] => 0
  | [x] => x
  | x :: y :: ys => max x (maxList (y :: ys))

/-- Python `min` over a (non-empty) list of rationals. -/
def minList : List ℚ → ℚ
  | [] => 0
  | [x] => x
  | x :: y :: ys => min x (minList (y :: ys))

/-- The `None`-filtering of `get_abs_temp_max`/`get_abs_temp_min`: an
absent optional temperature contributes nothing. -/
def optTemps : Option ℚ → List ℚ
  | some v => [v]
  | none => []

/-- `Zone.get_abs_temp_max` (zone.py): maximum over the present values of
cool max, heat max and base max temperature. -/
def Zone.get_abs_temp_max (z : Zone) : ℚ :=
  maxList (optTemps z.get_cool_temp_max ++ optTemps z.get_heat_temp_max ++ [z.get_temp_max])

/-- `Zone.get_abs_temp_min` (zone.py). -/
def Zone.get_abs_temp_min (z : Zone) : ℚ :=
  minList (optTemps z.get_cool_temp_min ++ optTemps z.get_heat_temp_min ++ [z.get_temp_min])

/-- Python truthiness of an optional float: falsy when absent or 0.0. -/
def qTruthy : Option ℚ → Bool
  | some v => v != 0
  | none => false

/-- The key set of `Zone.data()` (zone.py), restricted to the modelled
fields, in the source's insertion order: the unconditional block first,
then the conditionally added cool/heat bounds and setpoints (each added
exactly when its getter is truthy), the master-zone pointer, the mode
list (always present: `get_modes()` never returns `None`) and the set
temperature.  Conditional keys of unmodelled fields are elided. -/
def Zone.dataKeys (z : Zone) : List String :=
  ["absolute-temp-max", "absolute-temp-min", "action", "available", "demand",
   "double-set-point", "id", "master", "mode", "name", "on", "problems",
   "system", "temp", "temp-max", "temp-min", "temp-unit"]
  ++ (if qTruthy z.get_cool_temp_max then ["cool-temp-max"] else [])
  ++ (if qTruthy z.get_cool_temp_min then ["cool-temp-min"] else [])
  ++ (if qTruthy z.get_cool_temp_set then ["cool-temp-set"] else [])
  ++ (if qTruthy z.get_heat_temp_max then ["heat-temp-max"] else [])
  ++ (if qTruthy z.get_heat_temp_min then ["heat-temp-min"] else [])
  ++ (if qTruthy z.get_heat_temp_set then ["heat-temp-set"] else [])
  ++ (match z.masterZone with
      | some _ => ["master-zone"]
      | none => [])
  ++ ["modes"]
  ++ (match z.get_temp_set with
      | some _ => ["temp-set"]
      | none => [])

end Aioairzone

namespace Aioairzone

/-! ## System entity (`system.py`, `localapi.py`)

`src/aioairzone/system.py` is from a revision that lacks the mode-list
accessors called by `localapi.py` (`System.get_modes`/`set_modes`,
`set_mode`, `set_master_zone`, ...).  The mode-list store is therefore
modelled from the spec; the availability handling (`__init__`,
`update_zone_data`, `set_available`) is translated from `system.py`. -/

/-- The modelled slice of `System`.  `modes` - Modelled from the spec: the
System's aggregate mode list, written by master/slave propagation and
read back by slave zones; `src/aioairzone/system.py` is missing the
`get_modes`/`set_modes` accessor pair that `localapi.py` calls, so the
store is a plain list field, initially empty. -/
structure System where
  available : Bool
  modes : List OperationMode
deriving DecidableEq, Repr

/-- `System.__init__` (system.py): marks the system available (via
`update_zone_data`); the mode-list store starts empty. -/
def System.init (_d : ZoneData) : System :=
  { available := true, modes := [] }

/-- `System.update_zone_data` (system.py), restricted to the modelled
fields: re-marks the system available. -/
def System.update_zone_data (s : System) (_d : ZoneData) : System :=
  { s with available := true }

/-- `AirzoneLocalApi.update_system_from_zone` (localapi.py), restricted to
the modelled fields: a master zone's mode list always overwrites the
System's; a slave's only fills it while still empty. -/
def update_system_from_zone (s : System) (z : Zone) : System :=
  if z.master then
    { s with modes := z.get_modes }
  else
    if s.modes.length = 0 then { s with modes := z.get_modes } else s

/-! ## Exceptions (`exceptions.py`) -/

/-- The exception types raised by the modelled code paths.  `apiError`
carries the field/value pair of the triggering error item
(`APIError(f"...")`); `hotWaterNotAvailable` and `iaqSensorNotAvailable`
are raised by `localapi.py` (their class definitions postdate the
`exceptions.py` revision in the sources). -/
inductive AzErr where
  | apiError (field value : String)
  | invalidSystem
  | invalidZone
  | invalidParam
  | invalidMethod
  | requestMalformed
  | systemOutOfRange
  | systemNotAvailable
  | zoneOutOfRange
  | zoneNotAvailable
  | zoneNotProvided
  | paramUpdateFailure
  | hotWaterNotAvailable
  | iaqSensorNotAvailable
deriving DecidableEq, Repr

/-! ## Association lists

Python `dict`s keyed by system id / combined zone key, with insertion
order, first-match lookup, and in-place value update. -/

/-- Dict lookup (first matching key). -/
def lookupA {κ α : Type} [DecidableEq κ] : List (κ × α) → κ → Option α
  | [], _ => none
  | p :: ps, k => if p.1 = k then some p.2 else lookupA ps k

/-- Dict value update in place (first matching key; keys are unique in all
states the code builds). -/
def updateFirst {κ α : Type} [DecidableEq κ] : List (κ × α) → κ → (α → α) → List (κ × α)
  | [], _, _ => []
  | p :: ps, k, f => if p.1 = k then (p.1, f p.2) :: ps else p :: updateFirst ps k f

/-! ## Reconciliation core (`localapi.py`) -/

/-- Combined zone key: the model's counterpart of the string
`"{system_id}:{zone_id}"` from `get_system_zone_id` (common.py). -/
abbrev ZoneKey := Int × Int

/-- The modelled slice of `AirzoneLocalApi`: the system and zone maps and
the first-update flag.  (HTTP plumbing, feature flags, raw-data caches,
hot water and web server are not modelled.) -/
structure AirzoneState where
  systems : List (Int × System)
  zones : List (ZoneKey × Zone)
  firstUpdate : Bool
deriving DecidableEq, Repr

/-- Freshly constructed `AirzoneLocalApi`: empty maps,
`_first_update = True`. -/
def AirzoneState.initial : AirzoneState :=
  { systems := [], zones := [], firstUpdate := true }

/-- The system resolve-or-create step of `parse_system_zones`'s per-entry
loop (localapi.py): a new system id is appended, a known one is updated in
place (`System.update_zone_data`). -/
def entrySystems (st : AirzoneState) (d : ZoneData) : AirzoneState :=
  match lookupA st.systems (d.systemID.getD 0) with
  | none => { st with systems := st.systems ++ [(d.systemID.getD 0, System.init d)] }
  | some _ =>
    { st with systems :=
        updateFirst st.systems (d.systemID.getD 0) (fun s => s.update_zone_data d) }

/-- The zone resolve-or-create step: a new combined key is appended
(`Zone.__init__`), a known one is updated in place (`Zone.update_data`). -/
def entryZones (st : AirzoneState) (d : ZoneData) : AirzoneState :=
  match lookupA st.zones (d.systemID.getD 0, d.zoneID.getD 0) with
  | none =>
    { st with zones :=
        st.zones ++ [((d.systemID.getD 0, d.zoneID.getD 0),
          Zone.init (d.systemID.getD 0) (d.zoneID.getD 0) d)] }
  | some _ =>
    { st with zones :=
        updateFirst st.zones (d.systemID.getD 0, d.zoneID.getD 0) (fun z => z.update_data d) }

/-- The `update_system_from_zone` push: the just-merged zone's data is
folded into its owning system. -/
def entryPush (st : AirzoneState) (d : ZoneData) : AirzoneState :=
  match lookupA st.zones (d.systemID.getD 0, d.zoneID.getD 0) with
  | some z =>
    { st with systems :=
        updateFirst st.systems (d.systemID.getD 0) (fun s => update_system_from_zone s z) }
  | none => st

/-- The body of `parse_system_zones`'s per-entry loop (localapi.py):
resolve or create the System (system id > 0), then the Zone (zone id >
0), then push the zone's data up into the owning System. -/
def parse_zone_entry (st : AirzoneState) (d : ZoneData) : AirzoneState :=
  if 0 < d.systemID.getD 0 then
    if 0 < d.zoneID.getD 0 then entryPush (entryZones (entrySystems st d) d) d
    else entrySystems st d
  else st

/-- One iteration of `update_zones_from_master_zone`'s loop (localapi.py):
for a slave zone, pull the mode list from the explicitly named master
zone, or from the owning System when no master zone id is declared, and
store it when non-empty.  `get_system`/`get_zone` raise when the id is
absent from the maps. -/
def uzfmz_step (st : AirzoneState) (k : ZoneKey) : Except AzErr AirzoneState :=
  match lookupA st.zones k with
  | none => .ok st
  | some z =>
    if z.master then .ok st
    else
      match z.masterZone with
      | none =>
        match lookupA st.systems z.systemId with
        | none => .error .invalidSystem
        | some sys =>
          if 0 < sys.modes.length then
            .ok { st with zones := updateFirst st.zones k (fun w => { w with modes := sys.modes }) }
          else .ok st
      | some mid =>
        match lookupA st.zones (z.systemId, mid) with
        | none => .error .invalidZone
        | some mz =>
          if 0 < mz.get_modes.length then
            .ok { st with zones := updateFirst st.zones k (fun w => { w with modes := mz.get_modes }) }
          else .ok st

/-- The loop of `update_zones_from_master_zone` over the zone map's keys;
an exception aborts the loop, leaving the mutations made so far. -/
def uzfmzGo : AirzoneState → List ZoneKey → AirzoneState × Option AzErr
  | st, [] => (st, none)
  | st, k :: ks =>
    match uzfmz_step st k with
    | .ok st' => uzfmzGo st' ks
    | .error e => (st, some e)

/-- `AirzoneLocalApi.update_zones_from_master_zone` (localapi.py). -/
def update_zones_from_master_zone (st : AirzoneState) : AirzoneState × Option AzErr :=
  uzfmzGo st (st.zones.map Prod.fst)

/-- `AirzoneLocalApi.parse_system_zones` (localapi.py): merge every entry
of one system payload's `data` array, then run master/slave propagation. -/
def parse_system_zones (st : AirzoneState) (system_data : List ZoneData) : AirzoneState × Option AzErr :=
  update_zones_from_master_zone (system_data.foldl parse_zone_entry st)

/-- The loop of `update` over the `systems` array of the HVAC response:
each element is handed to `parse_system_zones`; an exception aborts. -/
def parseAll : AirzoneState → List (List ZoneData) → AirzoneState × Option AzErr
  | st, [] => (st, none)
  | st, sys :: rest =>
    match parse_system_zones st sys with
    | (st', none) => parseAll st' rest
    | (st', some e) => (st', some e)

/-- The availability sweep at the start of a poll (localapi.py, `update`):
every known System and Zone is marked unavailable. -/
def sweepUnavailable (st : AirzoneState) : AirzoneState :=
  { st with
    systems := st.systems.map (fun p => (p.1, { p.2 with available := false }))
    zones := st.zones.map (fun p => (p.1, { p.2 with available := false })) }

/-- `AirzoneLocalApi.update` (localapi.py), for the multi-system
configuration (`system_id = 0`).  The HVAC response is
`none` (empty body), `some none` (body without a `systems` key) or
`some (some payload)` (the `systems` array, each element reduced to its
`data` zone list).  The result pairs the state as mutated up to a raise
point with the raised exception, if any; `handle_empty_response` raises
only on the first update, otherwise it logs and the merge is abandoned
with the state untouched.  The feature-endpoint refresh
(`update_features`) is outside the model. -/
def update (st : AirzoneState) (hvac : Option (Option (List (List ZoneData)))) :
    AirzoneState × Option AzErr :=
  match hvac with
  | none =>
    if st.firstUpdate then (st, some (.apiError "update" "empty HVAC API response"))
    else (st, none)
  | some body =>
    let st := sweepUnavailable st
    match body with
    | none => (st, some (.apiError "update" "systems not in API response"))
    | some payload =>
      match parseAll st payload with
      | (st', none) => ({ st' with firstUpdate := false }, none)
      | (st', some e) => (st', some e)

end Aioairzone

namespace Aioairzone

/-! ## Vendor error dispatch (`localapi.py`, `AirzoneLocalApi.handle_errors`) -/

/-- The dispatch applied to one error item's key/value pair: an exact
string match on the value against the known vendor error strings
(const.py); anything else becomes a generic `APIError` carrying the
field/value pair. -/
def handle_error_item (k v : String) : AzErr :=
  if v = "acs not connected" then .hotWaterNotAvailable
  else if v = "iaqsensorid not available" then .iaqSensorNotAvailable
  else if v = "Method not provided or not supported" then .invalidMethod
  else if v = "request malformed" then .requestMalformed
  else if v = "systemid not avaiable" then .systemNotAvailable
  else if v = "systemid out of range" then .systemOutOfRange
  else if v = "zoneid out of range" then .zoneOutOfRange
  else if v = "zoneid not avaiable" then .zoneNotAvailable
  else if v = "zoneid not provided" then .zoneNotProvided
  else .apiError k v

/-- `AirzoneLocalApi.handle_errors` (localapi.py): the error list is a list
of objects; every key/value item raises, so the first item of the first
non-empty object determines the exception; an item-free list returns
normally. -/
def handle_errors : List (List (String × String)) → Except AzErr Unit
  | [] => .ok ()
  | [] :: rest => handle_errors rest
  | ((k, v) :: _) :: _ => .error (handle_error_item k v)

/-! ## PUT feedback validation

Requested parameters and the echoed `data[0]` object are modelled as
association lists over integer JSON values (ids, modes, scaled
temperatures). -/

/-- The no-feedback synthesis step of `set_hvac_parameters` (localapi.py):
for each parameter of `API_NO_FEEDBACK_PARAMS` (const.py: just `mode`)
that was requested but is absent from the echoed data, the requested
value is written into the echoed data. -/
def forceNoFeedback (params data0 : List (String × Int)) : List (String × Int) :=
  ["mode"].foldl
    (fun data param =>
      match lookupA params param with
      | some v => if (lookupA data param).isNone then data ++ [(param, v)] else data
      | none => data)
    data0

/-- The per-pair validation loop of `set_hvac_parameters` (localapi.py):
a system/zone id mismatch (requested value non-zero) raises
`InvalidSystem`/`InvalidZone`; a requested key absent from the echoed
data raises `InvalidParam`; any other pair passes - this revision has no
`ParamUpdateFailure` case. -/
def set_hvac_check : List (String × Int) → List (String × Int) → Except AzErr Unit
  | [], _ => .ok ()
  | (k, v) :: rest, data =>
    if (k = "systemID" ∨ k = "zoneID") ∧ v ≠ 0 ∧ lookupA data k ≠ some v then
      if k = "systemID" then .error .invalidSystem else .error .invalidZone
    else if (lookupA data k).isNone then .error .invalidParam
    else set_hvac_check rest data

/-- The data-present validation of `set_hvac_parameters` (localapi.py):
no-feedback synthesis, then the per-pair loop.  (The subsequent
application of the echoed values to the model is not needed by the
claims.) -/
def set_hvac_validate (params data0 : List (String × Int)) : Except AzErr Unit :=
  set_hvac_check params (forceNoFeedback params data0)

/-- The data-present validation of the legacy `put_hvac`
(localapi_device.py): for each requested pair, `key not in data or
data[key] != value` triggers the classification - system/zone id (value
non-zero) raises `InvalidSystem`/`InvalidZone`, an absent key raises
`InvalidParam`, and a present key with a different value raises
`ParamUpdateFailure`. -/
def put_hvac_validate : List (String × Int) → List (String × Int) → Except AzErr Unit
  | [], _ => .ok ()
  | (k, v) :: rest, data =>
    if lookupA data k ≠ some v then
      if k = "systemID" ∧ v ≠ 0 then .error .invalidSystem
      else if k = "zoneID" ∧ v ≠ 0 then .error .invalidZone
      else if (lookupA data k).isNone then .error .invalidParam
      else .error .paramUpdateFailure
    else put_hvac_validate rest data

end Aioairzone

namespace Aioairzone

/-! ## Presence predicates and projections used by the poll-merge theorems -/

/-- The system id under which `parse_system_zones` files an entry (`none`
when the payload's system id is absent or not positive). -/
def entrySys (d : ZoneData) : Option Int :=
  if 0 < d.systemID.getD 0 then some (d.systemID.getD 0) else none

/-- The combined key under which `parse_system_zones` files an entry's
zone (`none` when either id is absent or not positive). -/
def entryKey (d : ZoneData) : Option ZoneKey :=
  if 0 < d.systemID.getD 0 ∧ 0 < d.zoneID.getD 0 then
    some (d.systemID.getD 0, d.zoneID.getD 0)
  else none

/-- A zone with its mode list erased: master/slave propagation rewrites
only the mode list, so it preserves this projection. -/
def zoneShell (z : Zone) : Zone := { z with modes := [] }

/-- The zone keyed `k` has fresh data somewhere in the poll payload. -/
def zonePresentIn (payload : List (List ZoneData)) (k : ZoneKey) : Prop :=
  ∃ sys ∈ payload, ∃ d ∈ sys, entryKey d = some k

/-- The system `sid` has fresh data somewhere in the poll payload. -/
def sysPresentIn (payload : List (List ZoneData)) (sid : Int) : Prop :=
  ∃ sys ∈ payload, ∃ d ∈ sys, entrySys d = some sid

/-! ## Concrete fixtures used by example computations and witnesses -/

/-- A well-formed single-zone payload (Celsius, mode `HEATING`). -/
def basePayload : ZoneData :=
  { systemID := some 1, zoneID := some 1, onFlag := true, roomTemp := 20,
    maxTemp := 30, minTemp := 15, units := .CELSIUS, mode := some 3 }

/-- The zone built from `basePayload`. -/
def zoneFix : Zone := Zone.init 1 1 basePayload

/-- `basePayload` with a new set temperature above the declared maximum. -/
def rejPayload : ZoneData := { basePayload with setpoint := some 35 }

/-- `zoneFix` with a stored cooling setpoint of exactly 0.0. -/
def zoneZeroCool : Zone :=
  { zoneFix with cool_temp_set := some 0, heat_temp_set := some 0 }

/-- A Celsius zone whose stored maximum temperature is 0.04 (rounds to 0.0
at one decimal place). -/
def zoneTiny : Zone := Zone.init 1 1 { basePayload with maxTemp := 1/25 }

/-- Master-zone payload of the spec's propagation scenario: system 1,
zone 1, `modes = [COOLING, HEATING, AUTO]`. -/
def c1Master : ZoneData :=
  { systemID := some 1, zoneID := some 1, onFlag := true, roomTemp := 20,
    maxTemp := 30, minTemp := 15, units := .CELSIUS, mode := some 3,
    modes := some [2, 3, 7] }

/-- Slave-zone payload of the scenario: system 1, zone 2, no `modes` key,
no explicit master zone id. -/
def c1Slave : ZoneData :=
  { systemID := some 1, zoneID := some 2, onFlag := false, roomTemp := 21,
    maxTemp := 30, minTemp := 15, units := .CELSIUS, mode := some 3 }

/-- One full poll of the scenario from a fresh state. -/
def c1Poll : AirzoneState × Option AzErr :=
  update AirzoneState.initial (some (some [[c1Master, c1Slave]]))

/-! ## Step characterizations and field projections of `Zone.update_data` -/

/-- `updMasterZone` only writes the `masterZone` field. -/
theorem updMasterZone_eq (z : Zone) (d : ZoneData) :
    updMasterZone z d =
      { z with masterZone :=
          match d.masterZoneID with
          | some m => if m ≠ z.id then some m else z.masterZone
          | none => z.masterZone } := by
  unfold updMasterZone
  cases d.masterZoneID with
  | none => rfl
  | some m => by_cases h : m ≠ z.id <;> simp [h]

/-- `updCoolMax` only writes the `cool_temp_max` field. -/
theorem updCoolMax_eq (z : Zone) (d : ZoneData) :
    updCoolMax z d =
      { z with cool_temp_max :=
          match d.coolmaxtemp with
          | some v => some v
          | none => z.cool_temp_max } := by
  unfold updCoolMax
  cases d.coolmaxtemp <;> rfl

/-- `updCoolMin` only writes the `cool_temp_min` field. -/
theorem updCoolMin_eq (z : Zone) (d : ZoneData) :
    updCoolMin z d =
      { z with cool_temp_min :=
          match d.coolmintemp with
          | some v => some v
          | none => z.cool_temp_min } := by
  unfold updCoolMin
  cases d.coolmintemp <;> rfl

/-- `updCoolSet` only writes the `cool_temp_set` field, keeping the stored
value when validation rejects the new one. -/
theorem updCoolSet_eq (z : Zone) (d : ZoneData) :
    updCoolSet z d =
      { z with cool_temp_set :=
          match d.coolsetpoint with
          | some t =>
            match validate_temp_set t z.cool_temp_max with
            | some v => some v
            | none => z.cool_temp_set
          | none => z.cool_temp_set } := by
  unfold updCoolSet
  cases z
  repeat' split <;> first | rfl | simp_all

/-- `updHeatMax` only writes the `heat_temp_max` field. -/
theorem updHeatMax_eq (z : Zone) (d : ZoneData) :
    updHeatMax z d =
      { z with heat_temp_max :=
          match d.heatmaxtemp with
          | some v => some v
          | none => z.heat_temp_max } := by
  unfold updHeatMax
  cases d.heatmaxtemp <;> rfl

/-- `updHeatMin` only writes the `heat_temp_min` field. -/
theorem updHeatMin_eq (z : Zone) (d : ZoneData) :
    updHeatMin z d =
      { z with heat_temp_min :=
          match d.heatmintemp with
          | some v => some v
          | none => z.heat_temp_min } := by
  unfold updHeatMin
  cases d.heatmintemp <;> rfl

/-- `updHeatSet` only writes the `heat_temp_set` field. -/
theorem updHeatSet_eq (z : Zone) (d : ZoneData) :
    updHeatSet z d =
      { z with heat_temp_set :=
          match d.heatsetpoint with
          | some t =>
            match validate_temp_set t z.heat_temp_max with
            | some v => some v
            | none => z.heat_temp_set
          | none => z.heat_temp_set } := by
  unfold updHeatSet
  cases z
  repeat' split <;> first | rfl | simp_all

/-- `updMode` writes `mode` and, when the payload `mode` key is absent,
forces the master flag and the `[AUTO]` mode list. -/
theorem updMode_eq (z : Zone) (d : ZoneData) :
    updMode z d =
      { z with
        master := z.master || d.mode.isNone
        mode :=
          match d.mode with
          | some m => OperationMode.ofInt m
          | none => .AUTO
        modes :=
          match d.mode with
          | some _ => z.modes
          | none => [.AUTO] } := by
  unfold updMode
  cases d.mode <;> simp

/-- `updModes` only writes the `modes` field, and only on a master zone
whose payload carries a `modes` list. -/
theorem updModes_eq (z : Zone) (d : ZoneData) :
    updModes z d =
      { z with modes :=
          if z.master then
            match d.modes with
            | some ms => ms.map OperationMode.ofInt
            | none => z.modes
          else z.modes } := by
  unfold updModes
  cases z
  repeat' split <;> first | rfl | simp_all

/-- `updSetpoint` only writes the `temp_set` field. -/
theorem updSetpoint_eq (z : Zone) (d : ZoneData) :
    updSetpoint z d =
      { z with temp_set :=
          match d.setpoint with
          | some t =>
            match validate_temp_set t (some z.temp_max) with
            | some v => some v
            | none => z.temp_set
          | none => z.temp_set } := by
  unfold updSetpoint
  cases z
  repeat' split <;> first | rfl | simp_all

end Aioairzone

namespace Aioairzone

/-- `update_data` always re-marks the zone available. -/
theorem Zone.update_data_available (z : Zone) (d : ZoneData) :
    (z.update_data d).available = true := by
  simp only [Zone.update_data, updSetpoint_eq, updModes_eq, updMode_eq, updHeatSet_eq,
    updHeatMin_eq, updHeatMax_eq, updCoolSet_eq, updCoolMin_eq, updCoolMax_eq,
    updMasterZone_eq, updCore]

/-- `update_data` never changes the zone id. -/
theorem Zone.update_data_id (z : Zone) (d : ZoneData) :
    (z.update_data d).id = z.id := by
  simp only [Zone.update_data, updSetpoint_eq, updModes_eq, updMode_eq, updHeatSet_eq,
    updHeatMin_eq, updHeatMax_eq, updCoolSet_eq, updCoolMin_eq, updCoolMax_eq,
    updMasterZone_eq, updCore]

/-- `update_data` never changes the owning system id. -/
theorem Zone.update_data_systemId (z : Zone) (d : ZoneData) :
    (z.update_data d).systemId = z.systemId := by
  simp only [Zone.update_data, updSetpoint_eq, updModes_eq, updMode_eq, updHeatSet_eq,
    updHeatMin_eq, updHeatMax_eq, updCoolSet_eq, updCoolMin_eq, updCoolMax_eq,
    updMasterZone_eq, updCore]

/-- The master flag after `update_data`: a `modes` key in the payload, or a
missing `mode` key, makes the zone a master. -/
theorem Zone.update_data_master (z : Zone) (d : ZoneData) :
    (z.update_data d).master = (d.modes.isSome || d.mode.isNone) := by
  simp only [Zone.update_data, updSetpoint_eq, updModes_eq, updMode_eq, updHeatSet_eq,
    updHeatMin_eq, updHeatMax_eq, updCoolSet_eq, updCoolMin_eq, updCoolMax_eq,
    updMasterZone_eq, updCore]

/-- The mode after `update_data`. -/
theorem Zone.update_data_mode (z : Zone) (d : ZoneData) :
    (z.update_data d).mode =
      (match d.mode with
       | some m => OperationMode.ofInt m
       | none => .AUTO) := by
  simp only [Zone.update_data, updSetpoint_eq, updModes_eq, updMode_eq, updHeatSet_eq,
    updHeatMin_eq, updHeatMax_eq, updCoolSet_eq, updCoolMin_eq, updCoolMax_eq,
    updMasterZone_eq, updCore]

/-- The mode list after `update_data`: a payload `modes` list (decoded) if
present, `[AUTO]` when both `modes` and `mode` are absent, the previous
list otherwise. -/
theorem Zone.update_data_modes (z : Zone) (d : ZoneData) :
    (z.update_data d).modes =
      (match d.modes with
       | some ms => ms.map OperationMode.ofInt
       | none =>
         match d.mode with
         | none => [.AUTO]
         | some _ => z.modes) := by
  simp only [Zone.update_data, updSetpoint_eq, updModes_eq, updMode_eq, updHeatSet_eq,
    updHeatMin_eq, updHeatMax_eq, updCoolSet_eq, updCoolMin_eq, updCoolMax_eq,
    updMasterZone_eq, updCore]
  cases d.modes <;> cases d.mode <;> simp

/-- The master zone pointer after `update_data`. -/
theorem Zone.update_data_masterZone (z : Zone) (d : ZoneData) :
    (z.update_data d).masterZone =
      (match d.masterZoneID with
       | some m => if m ≠ z.id then some m else z.masterZone
       | none => z.masterZone) := by
  simp only [Zone.update_data, updSetpoint_eq, updModes_eq, updMode_eq, updHeatSet_eq,
    updHeatMin_eq, updHeatMax_eq, updCoolSet_eq, updCoolMin_eq, updCoolMax_eq,
    updMasterZone_eq, updCore]

/-- The cooling setpoint after `update_data`: a new payload value is
validated against the effective cooling maximum (the payload's if present,
the stored one otherwise); a rejected or absent value leaves the stored
setpoint unchanged. -/
theorem Zone.update_data_cool_temp_set (z : Zone) (d : ZoneData) :
    (z.update_data d).cool_temp_set =
      (match d.coolsetpoint with
       | some t =>
         match validate_temp_set t
             (match d.coolmaxtemp with
              | some v => some v
              | none => z.cool_temp_max) with
         | some v => some v
         | none => z.cool_temp_set
       | none => z.cool_temp_set) := by
  simp only [Zone.update_data, updSetpoint_eq, updModes_eq, updMode_eq, updHeatSet_eq,
    updHeatMin_eq, updHeatMax_eq, updCoolSet_eq, updCoolMin_eq, updCoolMax_eq,
    updMasterZone_eq, updCore]

/-- The heating setpoint after `update_data`. -/
theorem Zone.update_data_heat_temp_set (z : Zone) (d : ZoneData) :
    (z.update_data d).heat_temp_set =
      (match d.heatsetpoint with
       | some t =>
         match validate_temp_set t
             (match d.heatmaxtemp with
              | some v => some v
              | none => z.heat_temp_max) with
         | some v => some v
         | none => z.heat_temp_set
       | none => z.heat_temp_set) := by
  simp only [Zone.update_data, updSetpoint_eq, updModes_eq, updMode_eq, updHeatSet_eq,
    updHeatMin_eq, updHeatMax_eq, updCoolSet_eq, updCoolMin_eq, updCoolMax_eq,
    updMasterZone_eq, updCore]

/-- The base set temperature after `update_data`: a new payload value is
validated against the payload's maximum temperature (which `update_data`
has just stored). -/
theorem Zone.update_data_temp_set (z : Zone) (d : ZoneData) :
    (z.update_data d).temp_set =
      (match d.setpoint with
       | some t =>
         match validate_temp_set t (some d.maxTemp) with
         | some v => some v
         | none => z.temp_set
       | none => z.temp_set) := by
  simp only [Zone.update_data, updSetpoint_eq, updModes_eq, updMode_eq, updHeatSet_eq,
    updHeatMin_eq, updHeatMax_eq, updCoolSet_eq, updCoolMin_eq, updCoolMax_eq,
    updMasterZone_eq, updCore]

end Aioairzone

namespace Aioairzone

/-! ## Claim C7 - permissive enum decoding -/

/-- C7: for every enumerated value type in the value model (operation
mode, eco-adapt, grille angle, sleep timeout, stages, system type,
thermostat type, web-server type, hot-water operation), decoding any
integer (or, for eco-adapt, string) outside the known member set returns
the type's designated unknown/default member; the decoders are total
functions, so no exception is ever raised. -/
theorem enum_decoding_unknown_defaults (n : Int) (s : String) :
    (n ∉ ([-1, 1, 2, 3, 4, 5, 6, 7] : List Int) → OperationMode.ofInt n = .UNKNOWN) ∧
    (s ∉ (["off", "manual", "a", "a_p", "a_pp"] : List String) → EcoAdapt.ofString s = .OFF) ∧
    (n ∉ ([0, 1, 2, 3] : List Int) → GrilleAngle.ofInt n = .DEG_90) ∧
    (n ∉ ([0, 30, 60, 90] : List Int) → SleepTimeout.ofInt n = .SLEEP_OFF) ∧
    (n ∉ ([-1, 0, 1, 2, 3] : List Int) → AirzoneStages.ofInt n = .UNKNOWN) ∧
    (n ∉ ([-1, 1, 2, 3, 4, 5, 6, 7] : List Int) → SystemType.ofInt n = .UNKNOWN) ∧
    (n ∉ ([-1, 1, 2, 3, 4] : List Int) → ThermostatType.ofInt n = .UNKNOWN) ∧
    (n ∉ ([-1, 1, 2] : List Int) → WebServerType.ofInt n = .UNKNOWN) ∧
    (n ∉ ([-1, 0, 1, 2] : List Int) → HotWaterOperation.ofInt n = .UNKNOWN) := by
  refine ⟨?_, ?_, ?_, ?_, ?_, ?_, ?_, ?_, ?_⟩ <;> intro h <;>
    simp only [OperationMode.ofInt, EcoAdapt.ofString, GrilleAngle.ofInt, SleepTimeout.ofInt,
      AirzoneStages.ofInt, SystemType.ofInt, ThermostatType.ofInt, WebServerType.ofInt,
      HotWaterOperation.ofInt] <;>
    split_ifs <;> first | rfl | (subst_vars; simp at h)

/-- Witness for C7 at concrete out-of-range inputs. -/
theorem enum_decoding_unknown_defaults_witness :
    OperationMode.ofInt 999 = .UNKNOWN ∧
    EcoAdapt.ofString "bogus" = .OFF ∧
    GrilleAngle.ofInt 999 = .DEG_90 ∧
    SleepTimeout.ofInt 999 = .SLEEP_OFF ∧
    AirzoneStages.ofInt 999 = .UNKNOWN ∧
    SystemType.ofInt 999 = .UNKNOWN ∧
    ThermostatType.ofInt 999 = .UNKNOWN ∧
    WebServerType.ofInt 999 = .UNKNOWN ∧
    HotWaterOperation.ofInt 999 = .UNKNOWN :=
  ⟨(enum_decoding_unknown_defaults 999 "bogus").1 (by decide),
   (enum_decoding_unknown_defaults 999 "bogus").2.1 (by decide),
   (enum_decoding_unknown_defaults 999 "bogus").2.2.1 (by decide),
   (enum_decoding_unknown_defaults 999 "bogus").2.2.2.1 (by decide),
   (enum_decoding_unknown_defaults 999 "bogus").2.2.2.2.1 (by decide),
   (enum_decoding_unknown_defaults 999 "bogus").2.2.2.2.2.1 (by decide),
   (enum_decoding_unknown_defaults 999 "bogus").2.2.2.2.2.2.1 (by decide),
   (enum_decoding_unknown_defaults 999 "bogus").2.2.2.2.2.2.2.1 (by decide),
   (enum_decoding_unknown_defaults 999 "bogus").2.2.2.2.2.2.2.2 (by decide)⟩

/-! ## Claim C8 - `AirzoneStages.to_list` ordering -/

/-- C8: `to_list` reproduces the fixed ordering exactly: `Combined` yields
the four-element list `[Off, Air, Radiant, Combined]` in that order,
`Air` and `Radiant` yield `[Off, <that value>]`, and every other member
(`Off` and `UNKNOWN`) yields the empty list. -/
theorem stages_to_list_ordering :
    AirzoneStages.to_list .Combined = [.Off, .Air, .Radiant, .Combined] ∧
    AirzoneStages.to_list .Air = [.Off, .Air] ∧
    AirzoneStages.to_list .Radiant = [.Off, .Radiant] ∧
    AirzoneStages.to_list .Off = [] ∧
    AirzoneStages.to_list .UNKNOWN = [] := by
  decide

end Aioairzone

namespace Aioairzone

/-! ## Claim C6 - setpoint validation against the declared maximum -/

/-- Closed form of `validate_temp_set` on a present maximum: rejection
exactly when the maximum is non-zero and strictly below the new value. -/
theorem validate_temp_set_eq (t b : ℚ) :
    validate_temp_set t (some b) = (if b ≠ 0 ∧ b < t then none else some t) := by
  show (if b ≠ 0 then (if t ≤ b then some t else none) else some t) =
    (if b ≠ 0 ∧ b < t then none else some t)
  by_cases h0 : b = 0
  · simp [h0]
  · by_cases hle : t ≤ b
    · simp [h0, hle, not_lt.mpr hle]
    · simp [h0, hle, lt_of_not_le hle]

/-- C6: for every zone update, a new set-temperature value (base, cooling
or heating discipline) is rejected - the previously stored value is
retained - if and only if the corresponding declared maximum for that
discipline (the payload's just-stored maximum, or the previously stored
one for cool/heat when absent) is present, non-zero and strictly less
than the new value; otherwise the new value is accepted. -/
theorem setpoint_validation_guard (z : Zone) (d : ZoneData) (t b : ℚ) :
    (validate_temp_set t (some b) = none ↔ (b ≠ 0 ∧ b < t)) ∧
    (validate_temp_set t (some b) = some t ∨ validate_temp_set t (some b) = none) ∧
    (validate_temp_set t none = some t) ∧
    (d.setpoint = some t →
      (z.update_data d).temp_set =
        (if d.maxTemp ≠ 0 ∧ d.maxTemp < t then z.temp_set else some t)) ∧
    (d.coolsetpoint = some t →
      ∀ cb, (match d.coolmaxtemp with | some v => some v | none => z.cool_temp_max) = cb →
        (z.update_data d).cool_temp_set =
          (match cb with
           | some b2 => if b2 ≠ 0 ∧ b2 < t then z.cool_temp_set else some t
           | none => some t)) ∧
    (d.heatsetpoint = some t →
      ∀ hb, (match d.heatmaxtemp with | some v => some v | none => z.heat_temp_max) = hb →
        (z.update_data d).heat_temp_set =
          (match hb with
           | some b2 => if b2 ≠ 0 ∧ b2 < t then z.heat_temp_set else some t
           | none => some t)) := by
  refine ⟨?_, ?_, ?_, ?_, ?_, ?_⟩
  · rw [validate_temp_set_eq]
    split_ifs with h <;> simp [h]
  · rw [validate_temp_set_eq]
    split_ifs <;> simp
  · rfl
  · intro hset
    simp only [Zone.update_data_temp_set, hset, validate_temp_set_eq]
    split_ifs with h <;> rfl
  · intro hset cb hcb
    simp only [Zone.update_data_cool_temp_set, hset, hcb]
    cases cb with
    | none => rfl
    | some b2 =>
      simp only [validate_temp_set_eq]
      split_ifs with h <;> rfl
  · intro hset hb hhb
    simp only [Zone.update_data_heat_temp_set, hset, hhb]
    cases hb with
    | none => rfl
    | some b2 =>
      simp only [validate_temp_set_eq]
      split_ifs with h <;> rfl

/-- Witness for C6: a requested set temperature of 35 against a declared
maximum of 30 is rejected, leaving the stored value unchanged; the pure
validator rejects exactly then. -/
theorem setpoint_validation_guard_witness :
    validate_temp_set 35 (some 30) = none ∧
    (Zone.update_data zoneFix rejPayload).temp_set = zoneFix.temp_set := by
  constructor
  · exact (setpoint_validation_guard zoneFix rejPayload 35 30).1.mpr (by norm_num)
  · have h := (setpoint_validation_guard zoneFix rejPayload 35 30).2.2.2.1 rfl
    rw [h]
    norm_num [rejPayload, basePayload]

/-! ## Claim C10 - zero setpoints are indistinguishable from absent ones -/

/-- C10: `get_cool_temp_set`/`get_heat_temp_set` return `None` exactly when
the stored value is `None` or exactly 0.0 (a non-zero stored value is
returned rounded, even when it rounds to 0.0); and the `data()` snapshot
contains each cooling/heating min/max/setpoint key exactly when the
corresponding getter's value is truthy (present and non-zero). -/
theorem zero_setpoint_and_sparse_data (z : Zone) (v : ℚ) :
    (z.cool_temp_set = some 0 → z.get_cool_temp_set = none) ∧
    (z.heat_temp_set = some 0 → z.get_heat_temp_set = none) ∧
    (z.cool_temp_set = none → z.get_cool_temp_set = none) ∧
    (z.cool_temp_set = some v → v ≠ 0 → z.get_cool_temp_set = some (pyRound1 v)) ∧
    (z.heat_temp_set = some v → v ≠ 0 → z.get_heat_temp_set = some (pyRound1 v)) ∧
    (("cool-temp-max" ∈ z.dataKeys ↔ qTruthy z.get_cool_temp_max = true) ∧
     ("cool-temp-min" ∈ z.dataKeys ↔ qTruthy z.get_cool_temp_min = true) ∧
     ("cool-temp-set" ∈ z.dataKeys ↔ qTruthy z.get_cool_temp_set = true) ∧
     ("heat-temp-max" ∈ z.dataKeys ↔ qTruthy z.get_heat_temp_max = true) ∧
     ("heat-temp-min" ∈ z.dataKeys ↔ qTruthy z.get_heat_temp_min = true) ∧
     ("heat-temp-set" ∈ z.dataKeys ↔ qTruthy z.get_heat_temp_set = true)) := by
  refine ⟨?_, ?_, ?_, ?_, ?_, ?_, ?_, ?_, ?_, ?_, ?_⟩
  · intro h; unfold Zone.get_cool_temp_set; rw [h]; simp
  · intro h; unfold Zone.get_heat_temp_set; rw [h]; simp
  · intro h; unfold Zone.get_cool_temp_set; rw [h]
  · intro h hv; unfold Zone.get_cool_temp_set; rw [h]; simp [hv]
  · intro h hv; unfold Zone.get_heat_temp_set; rw [h]; simp [hv]
  · cases hmz : z.masterZone <;> cases hts : z.get_temp_set <;>
      by_cases hc : qTruthy z.get_cool_temp_max <;> simp [Zone.dataKeys, hc, hmz, hts]
  · cases hmz : z.masterZone <;> cases hts : z.get_temp_set <;>
      by_cases hc : qTruthy z.get_cool_temp_min <;> simp [Zone.dataKeys, hc, hmz, hts]
  · cases hmz : z.masterZone <;> cases hts : z.get_temp_set <;>
      by_cases hc : qTruthy z.get_cool_temp_set <;> simp [Zone.dataKeys, hc, hmz, hts]
  · cases hmz : z.masterZone <;> cases hts : z.get_temp_set <;>
      by_cases hc : qTruthy z.get_heat_temp_max <;> simp [Zone.dataKeys, hc, hmz, hts]
  · cases hmz : z.masterZone <;> cases hts : z.get_temp_set <;>
      by_cases hc : qTruthy z.get_heat_temp_min <;> simp [Zone.dataKeys, hc, hmz, hts]
  · cases hmz : z.masterZone <;> cases hts : z.get_temp_set <;>
      by_cases hc : qTruthy z.get_heat_temp_set <;> simp [Zone.dataKeys, hc, hmz, hts]

/-- Witness for C10: a zone with stored cooling and heating setpoints of
exactly 0.0 exposes neither through the getters, and its snapshot omits
the cooling setpoint key. -/
theorem zero_setpoint_and_sparse_data_witness :
    zoneZeroCool.get_cool_temp_set = none ∧
    zoneZeroCool.get_heat_temp_set = none ∧
    ("cool-temp-set" ∉ zoneZeroCool.dataKeys) := by
  refine ⟨?_, ?_, ?_⟩
  · exact (zero_setpoint_and_sparse_data zoneZeroCool 0).1 rfl
  · exact (zero_setpoint_and_sparse_data zoneZeroCool 0).2.1 rfl
  · intro hmem
    have h := (zero_setpoint_and_sparse_data zoneZeroCool 0).2.2.2.2.2.2.2.1.mp hmem
    have h0 := (zero_setpoint_and_sparse_data zoneZeroCool 0).1 rfl
    rw [h0] at h
    simp [qTruthy] at h

end Aioairzone

namespace Aioairzone

/-! ## Claim C5 - vendor error string dispatch -/

/-- C5 counterexample: the error string `"systemid not provided"` is not
specially dispatched by `handle_errors` - it falls through to the generic
`APIError`, unlike its zone counterpart. -/
theorem systemid_not_provided_dispatch_counterexample :
    handle_errors [[("systemID", "systemid not provided")]] =
      .error (.apiError "systemID" "systemid not provided") := by
  simp [handle_errors, handle_error_item]

/-- C5 (amended): each known vendor error string dispatched by
`handle_errors` maps to its own exception type - system/zone out of
range, system/zone not available, zone not provided (but not system not
provided), method not supported, request malformed, hot-water not
connected, IAQ-sensor not available - and any other error string,
`"systemid not provided"` included, raises the generic API error carrying
the field/value pair; the dispatch is by exact string match on the first
error item, and an item-free error list raises nothing. -/
theorem vendor_error_dispatch (k v : String) (errs : List (String × String))
    (rest : List (List (String × String))) :
    (handle_errors (((k, "acs not connected") :: errs) :: rest) =
      .error .hotWaterNotAvailable) ∧
    (handle_errors (((k, "iaqsensorid not available") :: errs) :: rest) =
      .error .iaqSensorNotAvailable) ∧
    (handle_errors (((k, "Method not provided or not supported") :: errs) :: rest) =
      .error .invalidMethod) ∧
    (handle_errors (((k, "request malformed") :: errs) :: rest) =
      .error .requestMalformed) ∧
    (handle_errors (((k, "systemid not avaiable") :: errs) :: rest) =
      .error .systemNotAvailable) ∧
    (handle_errors (((k, "systemid out of range") :: errs) :: rest) =
      .error .systemOutOfRange) ∧
    (handle_errors (((k, "zoneid out of range") :: errs) :: rest) =
      .error .zoneOutOfRange) ∧
    (handle_errors (((k, "zoneid not avaiable") :: errs) :: rest) =
      .error .zoneNotAvailable) ∧
    (handle_errors (((k, "zoneid not provided") :: errs) :: rest) =
      .error .zoneNotProvided) ∧
    (v ∉ (["acs not connected", "iaqsensorid not available",
           "Method not provided or not supported", "request malformed",
           "systemid not avaiable", "systemid out of range", "zoneid out of range",
           "zoneid not avaiable", "zoneid not provided"] : List String) →
      handle_errors (((k, v) :: errs) :: rest) = .error (.apiError k v)) ∧
    (handle_errors [[], []] = .ok ()) := by
  refine ⟨?_, ?_, ?_, ?_, ?_, ?_, ?_, ?_, ?_, ?_, ?_⟩ <;>
    first
      | (simp [handle_errors, handle_error_item]; done)
      | (intro h
         obtain ⟨h1, h2, h3, h4, h5, h6, h7, h8, h9⟩ := by simpa using h
         simp [handle_errors, handle_error_item, h1, h2, h3, h4, h5, h6, h7, h8, h9])

/-- Witness for C5 (amended): an unrecognized error string raises the
generic API error carrying the field/value pair. -/
theorem vendor_error_dispatch_witness :
    handle_errors [[("zoneID", "weird error")]] =
      .error (.apiError "zoneID" "weird error") :=
  (vendor_error_dispatch "zoneID" "weird error" [] []).2.2.2.2.2.2.2.2.2.1 (by decide)

end Aioairzone

namespace Aioairzone

/-! ## Claim C2 - PUT feedback validation -/

/-- Pairs whose requested value is echoed back exactly are passed over by
the legacy validation loop. -/
theorem put_hvac_validate_append (pre rest data : List (String × Int))
    (h : ∀ p ∈ pre, lookupA data p.1 = some p.2) :
    put_hvac_validate (pre ++ rest) data = put_hvac_validate rest data := by
  induction pre with
  | nil => rfl
  | cons p ps ih =>
    obtain ⟨k0, v0⟩ := p
    have hp := h (k0, v0) (List.mem_cons_self _ _)
    have hrec := ih fun q hq => h q (List.mem_cons_of_mem _ hq)
    calc put_hvac_validate (((k0, v0) :: ps) ++ rest) data
        = put_hvac_validate (ps ++ rest) data := by simp [put_hvac_validate, hp]
      _ = put_hvac_validate rest data := hrec

/-- C2 counterexample: in the current revision's `set_hvac_parameters`
(localapi.py), echoing `mode = 2` against a requested `mode = 1` raises
nothing - validation succeeds and the echoed value is applied; only the
legacy `put_hvac` (localapi_device.py) raises the parameter-update-failed
exception there. -/
theorem set_hvac_mode_mismatch_counterexample :
    set_hvac_validate [("systemID", 1), ("zoneID", 3), ("mode", 1)]
      [("systemID", 1), ("zoneID", 3), ("mode", 2)] = .ok () := by
  rfl

/-- C2 (amended): the claimed trichotomy is exactly the legacy `put_hvac`
validation (localapi_device.py): past a prefix of exactly-echoed pairs, a
system/zone id mismatch with non-zero requested value raises
`InvalidSystem`/`InvalidZone`, an absent key raises `InvalidParam`, and a
present key with a different value raises `ParamUpdateFailure`; when all
pairs match it succeeds.  The current `set_hvac_parameters` (localapi.py)
keeps only the first two checks and never raises
`ParamUpdateFailure` - a value mismatch on a present non-id key passes
validation. -/
theorem put_hvac_validation_trichotomy
    (pre post data params : List (String × Int)) (k : String) (v : Int) :
    ((∀ p ∈ params, lookupA data p.1 = some p.2) →
      put_hvac_validate params data = .ok ()) ∧
    ((∀ p ∈ pre, lookupA data p.1 = some p.2) → lookupA data k ≠ some v →
      ((k = "systemID" → v ≠ 0 →
         put_hvac_validate (pre ++ (k, v) :: post) data = .error .invalidSystem) ∧
       (k = "zoneID" → v ≠ 0 →
         put_hvac_validate (pre ++ (k, v) :: post) data = .error .invalidZone) ∧
       (¬(k = "systemID" ∧ v ≠ 0) → ¬(k = "zoneID" ∧ v ≠ 0) → lookupA data k = none →
         put_hvac_validate (pre ++ (k, v) :: post) data = .error .invalidParam) ∧
       (¬(k = "systemID" ∧ v ≠ 0) → ¬(k = "zoneID" ∧ v ≠ 0) → (lookupA data k).isSome →
         put_hvac_validate (pre ++ (k, v) :: post) data = .error .paramUpdateFailure))) ∧
    (∀ ps ds : List (String × Int), set_hvac_check ps ds ≠ .error .paramUpdateFailure) ∧
    (∀ ps ds : List (String × Int), set_hvac_validate ps ds ≠ .error .paramUpdateFailure) := by
  have hcheck : ∀ ps ds : List (String × Int),
      set_hvac_check ps ds ≠ .error .paramUpdateFailure := by
    intro ps
    induction ps with
    | nil => intro ds; simp [set_hvac_check]
    | cons p rest ih =>
      intro ds
      obtain ⟨k0, v0⟩ := p
      simp only [set_hvac_check]
      split_ifs <;> simp_all
  refine ⟨?_, ?_, hcheck, ?_⟩
  · intro h
    induction params with
    | nil => rfl
    | cons p ps ih =>
      obtain ⟨k0, v0⟩ := p
      have hp := h (k0, v0) (List.mem_cons_self _ _)
      have hrec := ih fun q hq => h q (List.mem_cons_of_mem _ hq)
      calc put_hvac_validate ((k0, v0) :: ps) data
          = put_hvac_validate ps data := by simp [put_hvac_validate, hp]
        _ = .ok () := hrec
  · intro hpre hmis
    rw [put_hvac_validate_append pre _ data hpre]
    refine ⟨?_, ?_, ?_, ?_⟩
    · intro hk hv
      subst hk
      simp [put_hvac_validate, hmis, hv]
    · intro hk hv
      subst hk
      simp [put_hvac_validate, hmis, hv]
    · intro hks hkz habs
      simp [put_hvac_validate, hmis, hks, hkz, habs]
    · intro hks hkz hsome
      obtain ⟨w, hw⟩ := Option.isSome_iff_exists.mp hsome
      have hne : ¬(w = v) := fun he => hmis (he ▸ hw)
      simp [put_hvac_validate, hmis, hks, hkz, hw, hne]
  · intro ps ds
    unfold set_hvac_validate
    exact hcheck ps (forceNoFeedback ps ds)

/-- Witness for C2 (amended): the spec's concrete example against the
legacy validation - requested `mode = 1`, echoed `mode = 2` - raises the
parameter-update-failed exception. -/
theorem put_hvac_validation_trichotomy_witness :
    put_hvac_validate [("systemID", 1), ("zoneID", 3), ("mode", 1)]
      [("systemID", 1), ("zoneID", 3), ("mode", 2)] = .error .paramUpdateFailure :=
  (((put_hvac_validation_trichotomy [("systemID", 1), ("zoneID", 3)] []
      [("systemID", 1), ("zoneID", 3), ("mode", 2)] [] "mode" 1).2.1
    (by decide) (by decide)).2.2.2) (by decide) (by decide) (by decide)

end Aioairzone

namespace Aioairzone

/-! ## Further field projections of `Zone.update_data` -/

/-- `update_data` stores the payload's maximum temperature. -/
theorem Zone.update_data_temp_max (z : Zone) (d : ZoneData) :
    (z.update_data d).temp_max = d.maxTemp := by
  simp only [Zone.update_data, updSetpoint_eq, updModes_eq, updMode_eq, updHeatSet_eq,
    updHeatMin_eq, updHeatMax_eq, updCoolSet_eq, updCoolMin_eq, updCoolMax_eq,
    updMasterZone_eq, updCore]

/-- `update_data` stores the payload's minimum temperature. -/
theorem Zone.update_data_temp_min (z : Zone) (d : ZoneData) :
    (z.update_data d).temp_min = d.minTemp := by
  simp only [Zone.update_data, updSetpoint_eq, updModes_eq, updMode_eq, updHeatSet_eq,
    updHeatMin_eq, updHeatMax_eq, updCoolSet_eq, updCoolMin_eq, updCoolMax_eq,
    updMasterZone_eq, updCore]

/-- `update_data` stores the payload's temperature unit. -/
theorem Zone.update_data_tempUnit (z : Zone) (d : ZoneData) :
    (z.update_data d).tempUnit = d.units := by
  simp only [Zone.update_data, updSetpoint_eq, updModes_eq, updMode_eq, updHeatSet_eq,
    updHeatMin_eq, updHeatMax_eq, updCoolSet_eq, updCoolMin_eq, updCoolMax_eq,
    updMasterZone_eq, updCore]

/-- The cooling maximum after `update_data`. -/
theorem Zone.update_data_cool_temp_max (z : Zone) (d : ZoneData) :
    (z.update_data d).cool_temp_max =
      (match d.coolmaxtemp with
       | some v => some v
       | none => z.cool_temp_max) := by
  simp only [Zone.update_data, updSetpoint_eq, updModes_eq, updMode_eq, updHeatSet_eq,
    updHeatMin_eq, updHeatMax_eq, updCoolSet_eq, updCoolMin_eq, updCoolMax_eq,
    updMasterZone_eq, updCore]

/-- The heating maximum after `update_data`. -/
theorem Zone.update_data_heat_temp_max (z : Zone) (d : ZoneData) :
    (z.update_data d).heat_temp_max =
      (match d.heatmaxtemp with
       | some v => some v
       | none => z.heat_temp_max) := by
  simp only [Zone.update_data, updSetpoint_eq, updModes_eq, updMode_eq, updHeatSet_eq,
    updHeatMin_eq, updHeatMax_eq, updCoolSet_eq, updCoolMin_eq, updCoolMax_eq,
    updMasterZone_eq, updCore]

/-! ## Claim C9 - temperature bound fix-ups -/

/-- `roundHalfEven` with its local bindings expanded. -/
theorem roundHalfEven_def (y : ℚ) :
    roundHalfEven y =
      (if y - (⌊y⌋ : ℚ) < 1/2 then ⌊y⌋
       else if y - (⌊y⌋ : ℚ) > 1/2 then ⌊y⌋ + 1
       else if ⌊y⌋ % 2 = 0 then ⌊y⌋ else ⌊y⌋ + 1) := rfl

/-- Rounding an integer changes nothing. -/
theorem roundHalfEven_intCast (n : ℤ) : roundHalfEven (n : ℚ) = n := by
  rw [roundHalfEven_def, Int.floor_intCast]
  norm_num

/-- `pyRound1` fixes any multiple of one tenth. -/
theorem pyRound1_of_int (x : ℚ) (n : ℤ) (hx : 10 * x = (n : ℚ)) :
    pyRound1 x = (n : ℚ) / 10 := by
  unfold pyRound1
  rw [hx, roundHalfEven_intCast]

/-- A rational of absolute value above 1/2 never rounds (half-to-even) to
the integer 0. -/
theorem roundHalfEven_ne_zero (y : ℚ) (hy : 1/2 < |y|) : roundHalfEven y ≠ 0 := by
  rw [roundHalfEven_def]
  rcases lt_abs.mp hy with hpos | hneg
  · have hf0 : 0 ≤ ⌊y⌋ := Int.floor_nonneg.mpr (by linarith)
    split_ifs with h1 h2 h3
    · intro h0
      rw [h0] at h1
      push_cast at h1
      linarith
    · omega
    · intro h0
      rw [h0] at h2
      push_cast at h2
      linarith
    · omega
  · have hyneg : y < -(1/2) := by linarith
    have hfq : (⌊y⌋ : ℚ) ≤ y := Int.floor_le y
    have hf : ⌊y⌋ ≤ -1 := by
      have hlt : (⌊y⌋ : ℚ) < 0 := by linarith
      have hlt2 : ⌊y⌋ < 0 := by exact_mod_cast hlt
      omega
    split_ifs with h1 h2 h3
    · omega
    · intro h0
      have hf1 : ⌊y⌋ = -1 := by omega
      rw [hf1] at h2
      push_cast at h2
      linarith
    · omega
    · intro h0
      have hf1 : ⌊y⌋ = -1 := by omega
      rw [hf1] at h1
      push_cast at h1
      linarith

/-- A rational of absolute value above 1/20 never rounds to 0.0 at one
decimal place. -/
theorem pyRound1_ne_zero (x : ℚ) (h : 1/20 < |x|) : pyRound1 x ≠ 0 := by
  unfold pyRound1
  have h10 : 1/2 < |10 * x| := by
    rw [abs_mul, abs_of_pos (by norm_num : (0:ℚ) < 10)]
    linarith
  have hr := roundHalfEven_ne_zero _ h10
  intro h0
  rcases div_eq_zero_iff.mp h0 with hc | hc
  · exact hr (by exact_mod_cast hc)
  · norm_num at hc

/-- The zero-substitution step never returns 0 (the defaults are
non-zero). -/
theorem defaultSubMax_ne_zero (u : TemperatureUnit) (m : ℚ) :
    defaultSubMax u m ≠ 0 := by
  unfold defaultSubMax
  split_ifs with h1 h2
  · norm_num [DEFAULT_TEMP_MAX_FAHRENHEIT]
  · norm_num [DEFAULT_TEMP_MAX_CELSIUS]
  · exact h1

/-- The zero-substitution step of the minimum fix never returns 0. -/
theorem defaultSubMin_ne_zero (u : TemperatureUnit) (m : ℚ) :
    defaultSubMin u m ≠ 0 := by
  unfold defaultSubMin
  split_ifs with h1 h2
  · norm_num [DEFAULT_TEMP_MIN_FAHRENHEIT]
  · norm_num [DEFAULT_TEMP_MIN_CELSIUS]
  · exact h1

/-- `maxList` of a non-empty list is one of its elements. -/
theorem maxList_mem (l : List ℚ) (hl : l ≠ []) : maxList l ∈ l := by
  induction l with
  | nil => exact absurd rfl hl
  | cons x xs ih =>
    cases xs with
    | nil => simp [maxList]
    | cons y ys =>
      rcases max_choice x (maxList (y :: ys)) with h | h
      · simp [maxList, h]
      · have hm := ih (by simp)
        rw [show maxList (x :: y :: ys) = max x (maxList (y :: ys)) from rfl, h]
        exact List.mem_cons_of_mem _ hm

/-- C9 counterexample: a Celsius zone whose stored maximum temperature is
0.04 passes the zero-substitution untouched but rounds to 0.0, so
`get_temp_max()` and `get_abs_temp_max()` return 0. -/
theorem temp_bound_zero_counterexample :
    fix_max_temp .CELSIUS (1/25) = 0 ∧
    zoneTiny.get_temp_max = 0 ∧
    zoneTiny.get_abs_temp_max = 0 := by
  have hfix : fix_max_temp .CELSIUS (1/25) = 0 := by
    have hds : defaultSubMax .CELSIUS (scaleFixMax .CELSIUS (1/25)) = 1/25 := by
      simp only [scaleFixMax, defaultSubMax, API_BUG_MAX_TEMP_FAH, API_BUG_MIN_TEMP_FAH,
        reduceCtorEq, if_false]
      norm_num
    have hfl : ⌊(10 * (1/25 : ℚ))⌋ = 0 := by
      rw [Int.floor_eq_iff]
      norm_num
    unfold fix_max_temp pyRound1
    rw [hds, roundHalfEven_def, hfl]
    norm_num
  have hU : zoneTiny.tempUnit = .CELSIUS := by
    unfold zoneTiny Zone.init
    rw [Zone.update_data_tempUnit]
    simp [basePayload]
  have hM : zoneTiny.temp_max = 1/25 := by
    unfold zoneTiny Zone.init
    rw [Zone.update_data_temp_max]
  have hCM : zoneTiny.cool_temp_max = none := by
    unfold zoneTiny Zone.init
    rw [Zone.update_data_cool_temp_max]
    simp [basePayload]
  have hHM : zoneTiny.heat_temp_max = none := by
    unfold zoneTiny Zone.init
    rw [Zone.update_data_heat_temp_max]
    simp [basePayload]
  have hbase : zoneTiny.get_temp_max = 0 := by
    unfold Zone.get_temp_max
    rw [hU, hM, hfix]
  refine ⟨hfix, hbase, ?_⟩
  unfold Zone.get_abs_temp_max Zone.get_cool_temp_max Zone.get_heat_temp_max
  rw [hCM, hHM]
  simpa [optTemps, maxList] using hbase

/-- C9 (amended): a stored bound of exactly 0.0 becomes the unit-specific
default (30.0 C / 86.0 F for max, 15.0 C / 60.0 F for min); in Fahrenheit
a stored max at or above 140 is divided by 10 and a stored max or min at
or below 32 is multiplied by 10, before rounding to one decimal place;
the value entering the rounding is never 0; and the getters cannot return
0 unless a scale-fixed stored bound is non-zero with absolute value at
most 0.05 (in which case it rounds to 0.0, as the counterexample
shows). -/
theorem temp_bound_fixups (u : TemperatureUnit) (m : ℚ) (z : Zone) :
    (fix_max_temp u 0 =
      (if u = .FAHRENHEIT then DEFAULT_TEMP_MAX_FAHRENHEIT else DEFAULT_TEMP_MAX_CELSIUS)) ∧
    (fix_min_temp u 0 =
      (if u = .FAHRENHEIT then DEFAULT_TEMP_MIN_FAHRENHEIT else DEFAULT_TEMP_MIN_CELSIUS)) ∧
    (API_BUG_MAX_TEMP_FAH ≤ m → scaleFixMax .FAHRENHEIT m = m / 10) ∧
    (m ≤ API_BUG_MIN_TEMP_FAH → scaleFixMax .FAHRENHEIT m = m * 10) ∧
    (m ≤ API_BUG_MIN_TEMP_FAH → scaleFixMin .FAHRENHEIT m = m * 10) ∧
    (scaleFixMax .CELSIUS m = m ∧ scaleFixMin .CELSIUS m = m) ∧
    (fix_max_temp u m = pyRound1 (defaultSubMax u (scaleFixMax u m))) ∧
    (defaultSubMax u (scaleFixMax u m) ≠ 0) ∧
    (1/20 < |defaultSubMax u (scaleFixMax u m)| → fix_max_temp u m ≠ 0) ∧
    (1/20 < |defaultSubMin u (scaleFixMin u m)| → fix_min_temp u m ≠ 0) ∧
    (1/20 < |defaultSubMax z.tempUnit (scaleFixMax z.tempUnit z.temp_max)| →
     (∀ v, z.cool_temp_max = some v →
        1/20 < |defaultSubMax z.tempUnit (scaleFixMax z.tempUnit v)|) →
     (∀ v, z.heat_temp_max = some v →
        1/20 < |defaultSubMax z.tempUnit (scaleFixMax z.tempUnit v)|) →
     (z.get_temp_max ≠ 0 ∧ z.get_abs_temp_max ≠ 0)) := by
  refine ⟨?_, ?_, ?_, ?_, ?_, ⟨rfl, rfl⟩, rfl, defaultSubMax_ne_zero u _, ?_, ?_, ?_⟩
  · have hds : defaultSubMax u (scaleFixMax u 0) =
        (if u = .FAHRENHEIT then DEFAULT_TEMP_MAX_FAHRENHEIT else DEFAULT_TEMP_MAX_CELSIUS) := by
      cases u <;> norm_num [defaultSubMax, scaleFixMax,
        DEFAULT_TEMP_MAX_FAHRENHEIT, DEFAULT_TEMP_MAX_CELSIUS]
    unfold fix_max_temp
    rw [hds]
    cases u
    · rw [if_neg (by simp),
        pyRound1_of_int DEFAULT_TEMP_MAX_CELSIUS 300 (by norm_num [DEFAULT_TEMP_MAX_CELSIUS])]
      norm_num [DEFAULT_TEMP_MAX_CELSIUS]
    · rw [if_pos rfl,
        pyRound1_of_int DEFAULT_TEMP_MAX_FAHRENHEIT 860 (by norm_num [DEFAULT_TEMP_MAX_FAHRENHEIT])]
      norm_num [DEFAULT_TEMP_MAX_FAHRENHEIT]
  · have hds : defaultSubMin u (scaleFixMin u 0) =
        (if u = .FAHRENHEIT then DEFAULT_TEMP_MIN_FAHRENHEIT else DEFAULT_TEMP_MIN_CELSIUS) := by
      cases u <;> norm_num [defaultSubMin, scaleFixMin,
        DEFAULT_TEMP_MIN_FAHRENHEIT, DEFAULT_TEMP_MIN_CELSIUS]
    unfold fix_min_temp
    rw [hds]
    cases u
    · rw [if_neg (by simp),
        pyRound1_of_int DEFAULT_TEMP_MIN_CELSIUS 150 (by norm_num [DEFAULT_TEMP_MIN_CELSIUS])]
      norm_num [DEFAULT_TEMP_MIN_CELSIUS]
    · rw [if_pos rfl,
        pyRound1_of_int DEFAULT_TEMP_MIN_FAHRENHEIT 600 (by norm_num [DEFAULT_TEMP_MIN_FAHRENHEIT])]
      norm_num [DEFAULT_TEMP_MIN_FAHRENHEIT]
  · intro h
    simp only [API_BUG_MAX_TEMP_FAH] at h
    simp [scaleFixMax, API_BUG_MAX_TEMP_FAH, h]
  · intro h
    simp only [API_BUG_MIN_TEMP_FAH] at h
    have hn : ¬((140 : ℚ) ≤ m) := by linarith
    simp [scaleFixMax, API_BUG_MAX_TEMP_FAH, API_BUG_MIN_TEMP_FAH, h, hn]
  · intro h
    simp only [API_BUG_MIN_TEMP_FAH] at h
    simp [scaleFixMin, API_BUG_MIN_TEMP_FAH, h]
  · intro h
    exact pyRound1_ne_zero _ h
  · intro h
    exact pyRound1_ne_zero _ h
  · intro hb hcool hheat
    have hbase : z.get_temp_max ≠ 0 := pyRound1_ne_zero _ hb
    refine ⟨hbase, ?_⟩
    unfold Zone.get_abs_temp_max
    have hall : ∀ x ∈ optTemps z.get_cool_temp_max ++ optTemps z.get_heat_temp_max
        ++ [z.get_temp_max], x ≠ 0 := by
      intro x hx
      rcases List.mem_append.mp hx with hx1 | hx2
      · rcases List.mem_append.mp hx1 with hxc | hxh
        · cases hcm : z.cool_temp_max with
          | none =>
            unfold Zone.get_cool_temp_max at hxc
            rw [hcm] at hxc
            simp [optTemps] at hxc
          | some v =>
            unfold Zone.get_cool_temp_max at hxc
            rw [hcm] at hxc
            simp [optTemps] at hxc
            rw [hxc]
            exact pyRound1_ne_zero _ (hcool v hcm)
        · cases hhm : z.heat_temp_max with
          | none =>
            unfold Zone.get_heat_temp_max at hxh
            rw [hhm] at hxh
            simp [optTemps] at hxh
          | some v =>
            unfold Zone.get_heat_temp_max at hxh
            rw [hhm] at hxh
            simp [optTemps] at hxh
            rw [hxh]
            exact pyRound1_ne_zero _ (hheat v hhm)
      · simp at hx2
        rw [hx2]
        exact hbase
    intro h0
    have hm := maxList_mem
      (optTemps z.get_cool_temp_max ++ optTemps z.get_heat_temp_max ++ [z.get_temp_max])
      (by simp)
    rw [h0] at hm
    exact hall 0 hm rfl

end Aioairzone

namespace Aioairzone

/-- Witness for C9 (amended): a Fahrenheit max of 150 is divided by 10;
and with the 0.05 proviso satisfied (the fixture zone's Celsius max of
30), the getters are non-zero. -/
theorem temp_bound_fixups_witness :
    scaleFixMax .FAHRENHEIT 150 = 15 ∧
    fix_max_temp .CELSIUS 25 ≠ 0 ∧
    zoneFix.get_temp_max ≠ 0 ∧
    zoneFix.get_abs_temp_max ≠ 0 := by
  have hU : zoneFix.tempUnit = .CELSIUS := by
    unfold zoneFix Zone.init
    rw [Zone.update_data_tempUnit]
    simp [basePayload]
  have hM : zoneFix.temp_max = 30 := by
    unfold zoneFix Zone.init
    rw [Zone.update_data_temp_max]
    simp [basePayload]
  have hCM : zoneFix.cool_temp_max = none := by
    unfold zoneFix Zone.init
    rw [Zone.update_data_cool_temp_max]
    simp [basePayload]
  have hHM : zoneFix.heat_temp_max = none := by
    unfold zoneFix Zone.init
    rw [Zone.update_data_heat_temp_max]
    simp [basePayload]
  have habs : ∀ w : ℚ, 0 < w →
      defaultSubMax .CELSIUS (scaleFixMax .CELSIUS w) = w := by
    intro w hw
    simp only [scaleFixMax, defaultSubMax, reduceCtorEq, if_false]
    rw [if_neg (by linarith)]
  have hmain := temp_bound_fixups .CELSIUS 25 zoneFix
  refine ⟨?_, ?_, ?_, ?_⟩
  · have h := (temp_bound_fixups .FAHRENHEIT 150 zoneFix).2.2.1
      (by norm_num [API_BUG_MAX_TEMP_FAH])
    rw [h]
    norm_num
  · refine hmain.2.2.2.2.2.2.2.2.1 ?_
    rw [habs 25 (by norm_num), abs_of_pos (by norm_num)]
    norm_num
  · refine (hmain.2.2.2.2.2.2.2.2.2.2 ?_ ?_ ?_).1
    · rw [hU, hM, habs 30 (by norm_num), abs_of_pos (by norm_num)]
      norm_num
    · intro v hv
      rw [hCM] at hv
      exact absurd hv (by simp)
    · intro v hv
      rw [hHM] at hv
      exact absurd hv (by simp)
  · refine (hmain.2.2.2.2.2.2.2.2.2.2 ?_ ?_ ?_).2
    · rw [hU, hM, habs 30 (by norm_num), abs_of_pos (by norm_num)]
      norm_num
    · intro v hv
      rw [hCM] at hv
      exact absurd hv (by simp)
    · intro v hv
      rw [hHM] at hv
      exact absurd hv (by simp)

end Aioairzone

namespace Aioairzone

/-! ## Claim C4 - empty HVAC response handling -/

/-- C4 counterexample: "first poll" is tracked by the `_first_update` flag,
which is cleared only by a *successful* poll.  After a first poll whose
HVAC response is empty (which raises and leaves the state untouched), a
second empty poll - a subsequent poll - raises again, contrary to the
claim that only the very first poll raises. -/
theorem empty_second_poll_counterexample :
    (update AirzoneState.initial none).2.isSome = true ∧
    (update (update AirzoneState.initial none).1 none).2.isSome = true :=
  ⟨rfl, rfl⟩

/-- C4 (amended): an empty HVAC response raises an API error on every poll
until the first successful poll has completed (`_first_update` still
set); after any successful poll it does not raise, the merge is abandoned
with the stored model state - availability flags included - retained
unchanged; and a successful poll clears the first-update flag. -/
theorem empty_response_handling (st st' : AirzoneState)
    (body : Option (List (List ZoneData))) :
    (st.firstUpdate = true →
      update st none = (st, some (.apiError "update" "empty HVAC API response"))) ∧
    (st.firstUpdate = false → update st none = (st, none)) ∧
    (update st (some body) = (st', none) → st'.firstUpdate = false) ∧
    (st.firstUpdate = false → ∀ k z, lookupA st.zones k = some z → z.available = false →
      ∃ z2, lookupA (update st none).1.zones k = some z2 ∧ z2.available = false) := by
  refine ⟨?_, ?_, ?_, ?_⟩
  · intro h
    simp [update, h]
  · intro h
    simp [update, h]
  · intro h
    cases body with
    | none => simp [update] at h
    | some payload =>
      simp only [update] at h
      rcases hp : parseAll (sweepUnavailable st) payload with ⟨st2, oe⟩
      rw [hp] at h
      cases oe with
      | none =>
        have := (Prod.mk.injEq _ _ _ _).mp h
        rw [← this.1]
      | some e => simp at h
  · intro h k z hz hav
    have hupd : update st none = (st, none) := by simp [update, h]
    rw [hupd]
    exact ⟨z, hz, hav⟩

/-- Witness for C4 (amended): from a fresh state the first empty poll
raises; from a state past its first successful poll an empty poll returns
with the state unchanged. -/
theorem empty_response_handling_witness :
    update AirzoneState.initial none =
      (AirzoneState.initial, some (.apiError "update" "empty HVAC API response")) ∧
    update { AirzoneState.initial with firstUpdate := false } none =
      ({ AirzoneState.initial with firstUpdate := false }, none) :=
  ⟨(empty_response_handling AirzoneState.initial AirzoneState.initial none).1 rfl,
   (empty_response_handling { AirzoneState.initial with firstUpdate := false }
      AirzoneState.initial none).2.1 rfl⟩

end Aioairzone

namespace Aioairzone

/-! ## Association list lemmas -/

theorem lookupA_nil {κ α : Type} [DecidableEq κ] (k : κ) :
    lookupA ([] : List (κ × α)) k = none := rfl

theorem lookupA_cons {κ α : Type} [DecidableEq κ] (p : κ × α) (ps : List (κ × α)) (k : κ) :
    lookupA (p :: ps) k = if p.1 = k then some p.2 else lookupA ps k := rfl

theorem updateFirst_nil {κ α : Type} [DecidableEq κ] (k : κ) (f : α → α) :
    updateFirst ([] : List (κ × α)) k f = [] := rfl

theorem updateFirst_cons {κ α : Type} [DecidableEq κ] (p : κ × α) (ps : List (κ × α))
    (k : κ) (f : α → α) :
    updateFirst (p :: ps) k f =
      (if p.1 = k then (p.1, f p.2) :: ps else p :: updateFirst ps k f) := rfl

theorem lookupA_append_self {κ α : Type} [DecidableEq κ] (l : List (κ × α)) (k : κ) (v : α)
    (h : lookupA l k = none) : lookupA (l ++ [(k, v)]) k = some v := by
  induction l with
  | nil => simp [lookupA_cons]
  | cons p ps ih =>
    rw [lookupA_cons] at h
    rw [List.cons_append, lookupA_cons]
    split_ifs with hp
    · rw [if_pos hp] at h
      exact absurd h (by simp)
    · rw [if_neg hp] at h
      exact ih h

theorem lookupA_append_other {κ α : Type} [DecidableEq κ] (l : List (κ × α)) (k k' : κ) (v : α)
    (h : k' ≠ k) : lookupA (l ++ [(k, v)]) k' = lookupA l k' := by
  induction l with
  | nil => simp [lookupA_cons, lookupA_nil, Ne.symm h]
  | cons p ps ih =>
    rw [List.cons_append, lookupA_cons, lookupA_cons]
    split_ifs with hp
    · rfl
    · exact ih

theorem lookupA_updateFirst_self {κ α : Type} [DecidableEq κ] (l : List (κ × α)) (k : κ)
    (f : α → α) : lookupA (updateFirst l k f) k = (lookupA l k).map f := by
  induction l with
  | nil => simp [updateFirst_nil, lookupA_nil]
  | cons p ps ih =>
    rw [updateFirst_cons]
    split_ifs with hp
    · rw [lookupA_cons, lookupA_cons, if_pos hp, if_pos hp]
      rfl
    · rw [lookupA_cons, lookupA_cons, if_neg hp, if_neg hp]
      exact ih

theorem lookupA_updateFirst_other {κ α : Type} [DecidableEq κ] (l : List (κ × α)) (k k' : κ)
    (f : α → α) (h : k' ≠ k) : lookupA (updateFirst l k f) k' = lookupA l k' := by
  induction l with
  | nil => simp [updateFirst_nil]
  | cons p ps ih =>
    rw [updateFirst_cons]
    split_ifs with hp
    · rw [lookupA_cons, lookupA_cons]
      have hne : ¬(p.1 = k') := by rw [hp]; exact fun hc => h hc.symm
      rw [if_neg hne, if_neg hne]
    · rw [lookupA_cons, lookupA_cons]
      split_ifs with hq
      · rfl
      · exact ih

theorem lookupA_map_snd {κ α : Type} [DecidableEq κ] (l : List (κ × α)) (k : κ) (g : α → α) :
    lookupA (l.map (fun p => (p.1, g p.2))) k = (lookupA l k).map g := by
  induction l with
  | nil => simp [lookupA_nil]
  | cons p ps ih =>
    rw [List.map_cons, lookupA_cons, lookupA_cons]
    split_ifs with hp
    · rfl
    · exact ih

theorem lookupA_isSome_of_append {κ α : Type} [DecidableEq κ] (l : List (κ × α)) (k : κ)
    (p : κ × α) (h : (lookupA l k).isSome) : (lookupA (l ++ [p]) k).isSome := by
  induction l with
  | nil => rw [lookupA_nil] at h; simp at h
  | cons q qs ih =>
    rw [lookupA_cons] at h
    rw [List.cons_append, lookupA_cons]
    split_ifs with hq
    · simp
    · rw [if_neg hq] at h
      exact ih h

end Aioairzone

namespace Aioairzone

/-! ## Spec of one `parse_system_zones` entry -/

/-- `update_system_from_zone` never touches the availability flag. -/
theorem update_system_from_zone_available (s : System) (z : Zone) :
    (update_system_from_zone s z).available = s.available := by
  unfold update_system_from_zone
  split_ifs <;> rfl

end Aioairzone

namespace Aioairzone

/-- `entrySystems` leaves the zone map and first-update flag alone, files
the entry's system id as available, and touches no other system. -/
theorem entrySystems_spec (st : AirzoneState) (d : ZoneData) :
    (entrySystems st d).zones = st.zones ∧
    (entrySystems st d).firstUpdate = st.firstUpdate ∧
    (∃ s', lookupA (entrySystems st d).systems (d.systemID.getD 0) = some s' ∧
      s'.available = true) ∧
    (∀ sid, sid ≠ d.systemID.getD 0 →
      lookupA (entrySystems st d).systems sid = lookupA st.systems sid) := by
  unfold entrySystems
  rcases hS : lookupA st.systems (d.systemID.getD 0) with _ | s0
  · refine ⟨rfl, rfl, ?_, ?_⟩
    · exact ⟨System.init d, lookupA_append_self _ _ _ hS, rfl⟩
    · intro sid hsid
      exact lookupA_append_other _ _ _ _ hsid
  · refine ⟨rfl, rfl, ?_, ?_⟩
    · refine ⟨s0.update_zone_data d, ?_, rfl⟩
      rw [lookupA_updateFirst_self, hS]
      rfl
    · intro sid hsid
      exact lookupA_updateFirst_other _ _ _ _ hsid

/-- `entryZones` leaves the system map and first-update flag alone, files
the entry's combined key as available, and touches no other zone. -/
theorem entryZones_spec (st : AirzoneState) (d : ZoneData) :
    (entryZones st d).systems = st.systems ∧
    (entryZones st d).firstUpdate = st.firstUpdate ∧
    (∃ z', lookupA (entryZones st d).zones (d.systemID.getD 0, d.zoneID.getD 0) = some z' ∧
      z'.available = true) ∧
    (∀ k, k ≠ (d.systemID.getD 0, d.zoneID.getD 0) →
      lookupA (entryZones st d).zones k = lookupA st.zones k) := by
  unfold entryZones
  rcases hZ : lookupA st.zones (d.systemID.getD 0, d.zoneID.getD 0) with _ | z0
  · refine ⟨rfl, rfl, ?_, ?_⟩
    · exact ⟨_, lookupA_append_self _ _ _ hZ, Zone.update_data_available _ _⟩
    · intro k hk
      exact lookupA_append_other _ _ _ _ hk
  · refine ⟨rfl, rfl, ?_, ?_⟩
    · refine ⟨z0.update_data d, ?_, Zone.update_data_available _ _⟩
      rw [lookupA_updateFirst_self, hZ]
      rfl
    · intro k hk
      exact lookupA_updateFirst_other _ _ _ _ hk

/-- `entryPush` leaves the zone map and first-update flag alone and
preserves every system's availability flag and key set. -/
theorem entryPush_spec (st : AirzoneState) (d : ZoneData) :
    (entryPush st d).zones = st.zones ∧
    (entryPush st d).firstUpdate = st.firstUpdate ∧
    (∀ sid, (lookupA (entryPush st d).systems sid).map System.available =
      (lookupA st.systems sid).map System.available) := by
  unfold entryPush
  rcases hZ : lookupA st.zones (d.systemID.getD 0, d.zoneID.getD 0) with _ | z
  · exact ⟨rfl, rfl, fun _ => rfl⟩
  · refine ⟨rfl, rfl, ?_⟩
    intro sid
    by_cases hsid : sid = d.systemID.getD 0
    · rw [hsid, lookupA_updateFirst_self]
      rcases hS : lookupA st.systems (d.systemID.getD 0) with _ | s0
      · rfl
      · simp [update_system_from_zone_available]
    · rw [lookupA_updateFirst_other _ _ _ _ hsid]

/-- Effect of one payload entry on the zone map: the entry's own key (when
both ids are positive) ends up present and available; every other key's
binding is untouched. -/
theorem parse_zone_entry_zones (st : AirzoneState) (d : ZoneData) (k : ZoneKey) :
    (entryKey d = some k →
      ∃ z', lookupA (parse_zone_entry st d).zones k = some z' ∧ z'.available = true) ∧
    (entryKey d ≠ some k → lookupA (parse_zone_entry st d).zones k = lookupA st.zones k) := by
  unfold parse_zone_entry entryKey
  by_cases hsid : 0 < d.systemID.getD 0
  · by_cases hzid : 0 < d.zoneID.getD 0
    · rw [if_pos hsid, if_pos hzid, if_pos ⟨hsid, hzid⟩]
      have h1 := entrySystems_spec st d
      have h2 := entryZones_spec (entrySystems st d) d
      have h3 := entryPush_spec (entryZones (entrySystems st d) d) d
      constructor
      · intro hk
        injection hk with hk
        subst hk
        rw [h3.1]
        exact h2.2.2.1
      · intro hk
        have hne : k ≠ (d.systemID.getD 0, d.zoneID.getD 0) := fun hc => hk (by rw [hc])
        rw [h3.1, h2.2.2.2 k hne, h1.1]
    · rw [if_pos hsid, if_neg hzid, if_neg (fun hc => hzid hc.2)]
      refine ⟨fun hk => absurd hk (by simp), fun _ => ?_⟩
      rw [(entrySystems_spec st d).1]
  · rw [if_neg hsid, if_neg (fun hc => hsid hc.1)]
    exact ⟨fun hk => absurd hk (by simp), fun _ => rfl⟩

/-- Effect of one payload entry on the system map: the entry's system id
(when positive) ends up present and available; every other id's
availability flag and presence are untouched. -/
theorem parse_zone_entry_systems (st : AirzoneState) (d : ZoneData) (sid : Int) :
    (entrySys d = some sid →
      ∃ s', lookupA (parse_zone_entry st d).systems sid = some s' ∧ s'.available = true) ∧
    (entrySys d ≠ some sid →
      (lookupA (parse_zone_entry st d).systems sid).map System.available =
        (lookupA st.systems sid).map System.available) := by
  unfold parse_zone_entry entrySys
  by_cases hsid : 0 < d.systemID.getD 0
  · rw [if_pos hsid, if_pos hsid]
    have h1 := entrySystems_spec st d
    by_cases hzid : 0 < d.zoneID.getD 0
    · rw [if_pos hzid]
      have h2 := entryZones_spec (entrySystems st d) d
      have h3 := entryPush_spec (entryZones (entrySystems st d) d) d
      constructor
      · intro hk
        injection hk with hk
        subst hk
        obtain ⟨s', hs', hav⟩ := h1.2.2.1
        have hmap := h3.2.2 (d.systemID.getD 0)
        rw [h2.1, hs'] at hmap
        rcases hfin : lookupA (entryPush (entryZones (entrySystems st d) d) d).systems
            (d.systemID.getD 0) with _ | s2
        · rw [hfin] at hmap
          simp at hmap
        · rw [hfin] at hmap
          simp at hmap
          exact ⟨s2, rfl, by rw [hmap, hav]⟩
      · intro hk
        have hne : sid ≠ d.systemID.getD 0 := fun hc => hk (by rw [hc])
        have hmap := h3.2.2 sid
        rw [h2.1, h1.2.2.2 sid hne] at hmap
        exact hmap
    · rw [if_neg hzid]
      constructor
      · intro hk
        injection hk with hk
        subst hk
        exact h1.2.2.1
      · intro hk
        have hne : sid ≠ d.systemID.getD 0 := fun hc => hk (by rw [hc])
        rw [h1.2.2.2 sid hne]
  · rw [if_neg hsid, if_neg hsid]
    exact ⟨fun hk => absurd hk (by simp), fun _ => rfl⟩

end Aioairzone

namespace Aioairzone

/-- Folding one system's entry list: a key with fresh data ends up present
and available; a key without fresh data keeps its binding. -/
theorem foldl_entries_zones (sys : List ZoneData) (st : AirzoneState) (k : ZoneKey) :
    ((∃ d ∈ sys, entryKey d = some k) →
      ∃ z', lookupA (sys.foldl parse_zone_entry st).zones k = some z' ∧ z'.available = true) ∧
    ((¬ ∃ d ∈ sys, entryKey d = some k) →
      lookupA (sys.foldl parse_zone_entry st).zones k = lookupA st.zones k) := by
  induction sys generalizing st with
  | nil => exact ⟨fun h => absurd h (by simp), fun _ => rfl⟩
  | cons d ds ih =>
    rw [List.foldl_cons]
    constructor
    · rintro ⟨d', hd', hk⟩
      rcases List.mem_cons.mp hd' with rfl | hmem
      · by_cases hds : ∃ e ∈ ds, entryKey e = some k
        · exact (ih _).1 hds
        · rw [(ih _).2 hds]
          exact (parse_zone_entry_zones st d' k).1 hk
      · exact (ih _).1 ⟨d', hmem, hk⟩
    · intro hno
      have hd : entryKey d ≠ some k := fun hc => hno ⟨d, by simp, hc⟩
      have hds : ¬ ∃ e ∈ ds, entryKey e = some k := by
        rintro ⟨e, he, hc⟩
        exact hno ⟨e, by simp [he], hc⟩
      rw [(ih _).2 hds, (parse_zone_entry_zones st d k).2 hd]

/-- Transfer of "present and available" across an availability-preserving
step. -/
theorem avail_of_map_eq (o1 o2 : Option System)
    (h : o1.map System.available = o2.map System.available)
    (h2 : ∃ s, o2 = some s ∧ s.available = true) :
    ∃ s, o1 = some s ∧ s.available = true := by
  rcases h2 with ⟨s, rfl, hav⟩
  rcases o1 with _ | s1
  · simp at h
  · simp at h
    exact ⟨s1, rfl, by rw [h, hav]⟩

/-- Folding one system's entry list: a system id with fresh data ends up
present and available; any other id keeps its availability flag. -/
theorem foldl_entries_systems (sys : List ZoneData) (st : AirzoneState) (sid : Int) :
    ((∃ d ∈ sys, entrySys d = some sid) →
      ∃ s', lookupA (sys.foldl parse_zone_entry st).systems sid = some s' ∧
        s'.available = true) ∧
    ((¬ ∃ d ∈ sys, entrySys d = some sid) →
      (lookupA (sys.foldl parse_zone_entry st).systems sid).map System.available =
        (lookupA st.systems sid).map System.available) := by
  induction sys generalizing st with
  | nil => exact ⟨fun h => absurd h (by simp), fun _ => rfl⟩
  | cons d ds ih =>
    rw [List.foldl_cons]
    constructor
    · rintro ⟨d', hd', hk⟩
      rcases List.mem_cons.mp hd' with rfl | hmem
      · by_cases hds : ∃ e ∈ ds, entrySys e = some sid
        · exact (ih _).1 hds
        · exact avail_of_map_eq _ _ ((ih _).2 hds)
            ((parse_zone_entry_systems st d' sid).1 hk)
      · exact (ih _).1 ⟨d', hmem, hk⟩
    · intro hno
      have hd : entrySys d ≠ some sid := fun hc => hno ⟨d, by simp, hc⟩
      have hds : ¬ ∃ e ∈ ds, entrySys e = some sid := by
        rintro ⟨e, he, hc⟩
        exact hno ⟨e, by simp [he], hc⟩
      rw [(ih _).2 hds, (parse_zone_entry_systems st d sid).2 hd]

/-- Rewriting only the mode list does not change a zone's shell. -/
theorem map_shell_modes (M : List OperationMode) (o : Option Zone) :
    (o.map (fun w => { w with modes := M })).map zoneShell = o.map zoneShell := by
  rcases o with _ | w <;> rfl

/-- One master/slave propagation step leaves the system map, the
first-update flag, and every zone's shell (everything but the mode list)
unchanged. -/
theorem uzfmz_step_shell (st : AirzoneState) (k0 : ZoneKey) (st' : AirzoneState)
    (h : uzfmz_step st k0 = .ok st') :
    st'.systems = st.systems ∧ st'.firstUpdate = st.firstUpdate ∧
    ∀ k, (lookupA st'.zones k).map zoneShell = (lookupA st.zones k).map zoneShell := by
  unfold uzfmz_step at h
  repeat' split at h
  all_goals
    first
      | exact Except.noConfusion h
      | (injection h with h
         subst h
         first
           | exact ⟨rfl, rfl, fun _ => rfl⟩
           | (refine ⟨rfl, rfl, fun k => ?_⟩
              dsimp only
              by_cases hk : k = k0
              · subst hk
                rw [lookupA_updateFirst_self, map_shell_modes]
              · rw [lookupA_updateFirst_other _ _ _ _ hk]))

/-- The whole propagation pass (even if aborted by an exception) leaves
the system map, the first-update flag and every zone's shell unchanged. -/
theorem uzfmzGo_shell (ks : List ZoneKey) (st st' : AirzoneState) (oe : Option AzErr)
    (h : uzfmzGo st ks = (st', oe)) :
    st'.systems = st.systems ∧ st'.firstUpdate = st.firstUpdate ∧
    ∀ k, (lookupA st'.zones k).map zoneShell = (lookupA st.zones k).map zoneShell := by
  induction ks generalizing st with
  | nil =>
    unfold uzfmzGo at h
    injection h with h1 h2
    subst h1
    exact ⟨rfl, rfl, fun _ => rfl⟩
  | cons k0 ks ih =>
    unfold uzfmzGo at h
    split at h
    · rename_i st1 heq
      have hs := uzfmz_step_shell st k0 st1 heq
      have hrec := ih _ h
      exact ⟨hrec.1.trans hs.1, hrec.2.1.trans hs.2.1, fun k => (hrec.2.2 k).trans (hs.2.2 k)⟩
    · injection h with h1 h2
      subst h1
      exact ⟨rfl, rfl, fun _ => rfl⟩

end Aioairzone

namespace Aioairzone

/-- Shell preservation implies availability-flag preservation. -/
theorem shell_avail {o1 o2 : Option Zone} (h : o1.map zoneShell = o2.map zoneShell) :
    o1.map Zone.available = o2.map Zone.available := by
  rcases o1 with _ | z1 <;> rcases o2 with _ | z2 <;> simp at h ⊢
  have h2 := congrArg Zone.available h
  exact h2

/-- Transfer of "present and available" across an availability-preserving
step (zone version). -/
theorem availZ_of_map_eq (o1 o2 : Option Zone)
    (h : o1.map Zone.available = o2.map Zone.available)
    (h2 : ∃ z, o2 = some z ∧ z.available = true) :
    ∃ z, o1 = some z ∧ z.available = true := by
  rcases h2 with ⟨z, rfl, hav⟩
  rcases o1 with _ | z1
  · simp at h
  · simp at h
    exact ⟨z1, rfl, by rw [h, hav]⟩

/-- The sweep at the start of a poll: every zone binding is kept but
marked unavailable. -/
theorem sweepUnavailable_lookup (st : AirzoneState) (k : ZoneKey) (sid : Int) :
    lookupA (sweepUnavailable st).zones k =
      (lookupA st.zones k).map (fun z => { z with available := false }) ∧
    lookupA (sweepUnavailable st).systems sid =
      (lookupA st.systems sid).map (fun s => { s with available := false }) ∧
    (sweepUnavailable st).firstUpdate = st.firstUpdate := by
  refine ⟨?_, ?_, rfl⟩
  · simp only [sweepUnavailable]
    exact lookupA_map_snd st.zones k (fun z => { z with available := false })
  · simp only [sweepUnavailable]
    exact lookupA_map_snd st.systems sid (fun s => { s with available := false })

/-- Availability effect of `parse_system_zones` (one `systems` array
element): fresh keys/ids end up present and available; all others keep
their availability flag.  Holds whether or not the propagation pass
raised. -/
theorem parse_system_zones_avail (sysd : List ZoneData) (st st2 : AirzoneState)
    (oe : Option AzErr) (h : parse_system_zones st sysd = (st2, oe)) :
    (∀ k, ((∃ d ∈ sysd, entryKey d = some k) →
        ∃ z', lookupA st2.zones k = some z' ∧ z'.available = true) ∧
      ((¬ ∃ d ∈ sysd, entryKey d = some k) →
        (lookupA st2.zones k).map Zone.available =
          (lookupA st.zones k).map Zone.available)) ∧
    (∀ sid, ((∃ d ∈ sysd, entrySys d = some sid) →
        ∃ s', lookupA st2.systems sid = some s' ∧ s'.available = true) ∧
      ((¬ ∃ d ∈ sysd, entrySys d = some sid) →
        (lookupA st2.systems sid).map System.available =
          (lookupA st.systems sid).map System.available)) := by
  unfold parse_system_zones update_zones_from_master_zone at h
  have hs := uzfmzGo_shell _ _ _ _ h
  refine ⟨?_, ?_⟩
  · intro k
    have hz := foldl_entries_zones sysd st k
    have hmap := shell_avail (hs.2.2 k)
    constructor
    · intro hpres
      exact availZ_of_map_eq _ _ hmap (hz.1 hpres)
    · intro hpres
      rw [hmap, hz.2 hpres]
  · intro sid
    have hsys := foldl_entries_systems sysd st sid
    constructor
    · intro hpres
      rw [hs.1]
      exact hsys.1 hpres
    · intro hpres
      rw [hs.1]
      exact hsys.2 hpres

/-- Availability effect of a whole successful `systems`-array merge. -/
theorem parseAll_avail (payload : List (List ZoneData)) (st st2 : AirzoneState)
    (h : parseAll st payload = (st2, none)) :
    (∀ k, (zonePresentIn payload k →
        ∃ z', lookupA st2.zones k = some z' ∧ z'.available = true) ∧
      (¬ zonePresentIn payload k →
        (lookupA st2.zones k).map Zone.available =
          (lookupA st.zones k).map Zone.available)) ∧
    (∀ sid, (sysPresentIn payload sid →
        ∃ s', lookupA st2.systems sid = some s' ∧ s'.available = true) ∧
      (¬ sysPresentIn payload sid →
        (lookupA st2.systems sid).map System.available =
          (lookupA st.systems sid).map System.available)) := by
  induction payload generalizing st with
  | nil =>
    unfold parseAll at h
    injection h with h1 h2
    subst h1
    refine ⟨fun k => ⟨?_, fun _ => rfl⟩, fun sid => ⟨?_, fun _ => rfl⟩⟩
    · rintro ⟨sys, hsys, -⟩
      cases hsys
    · rintro ⟨sys, hsys, -⟩
      cases hsys
  | cons sysd rest ih =>
    unfold parseAll at h
    split at h
    · rename_i st1 heq
      have h1 := parse_system_zones_avail sysd st st1 none heq
      have h2 := ih _ h
      constructor
      · intro k
        constructor
        · rintro ⟨sys, hsys, d, hd, hk⟩
          rcases List.mem_cons.mp hsys with rfl | hmem
          · by_cases hrest : zonePresentIn rest k
            · exact (h2.1 k).1 hrest
            · exact availZ_of_map_eq _ _ ((h2.1 k).2 hrest) ((h1.1 k).1 ⟨d, hd, hk⟩)
          · exact (h2.1 k).1 ⟨sys, hmem, d, hd, hk⟩
        · intro hno
          have hhead : ¬ ∃ d ∈ sysd, entryKey d = some k := by
            rintro ⟨d, hd, hk⟩
            exact hno ⟨sysd, by simp, d, hd, hk⟩
          have hrest : ¬ zonePresentIn rest k := by
            rintro ⟨sys, hsys, d, hd, hk⟩
            exact hno ⟨sys, by simp [hsys], d, hd, hk⟩
          rw [(h2.1 k).2 hrest, (h1.1 k).2 hhead]
      · intro sid
        constructor
        · rintro ⟨sys, hsys, d, hd, hk⟩
          rcases List.mem_cons.mp hsys with rfl | hmem
          · by_cases hrest : sysPresentIn rest sid
            · exact (h2.2 sid).1 hrest
            · exact avail_of_map_eq _ _ ((h2.2 sid).2 hrest) ((h1.2 sid).1 ⟨d, hd, hk⟩)
          · exact (h2.2 sid).1 ⟨sys, hmem, d, hd, hk⟩
        · intro hno
          have hhead : ¬ ∃ d ∈ sysd, entrySys d = some sid := by
            rintro ⟨d, hd, hk⟩
            exact hno ⟨sysd, by simp, d, hd, hk⟩
          have hrest : ¬ sysPresentIn rest sid := by
            rintro ⟨sys, hsys, d, hd, hk⟩
            exact hno ⟨sys, by simp [hsys], d, hd, hk⟩
          rw [(h2.2 sid).2 hrest, (h1.2 sid).2 hhead]
    · injection h with h1 h2
      simp at h2

end Aioairzone

namespace Aioairzone

/-- Equality of mapped options forces equality of presence. -/
theorem isSome_of_map_eq {α β : Type} (f : α → β) (o1 o2 : Option α)
    (h : o1.map f = o2.map f) : o1.isSome = o2.isSome := by
  rcases o1 <;> rcases o2 <;> simp_all

/-- C3: after a completed poll (`update` returns without raising), every
previously known System and Zone is still in the model, and an entity is
available exactly when the poll's payload carried fresh data for it. -/
theorem availability_reconciliation (st st' : AirzoneState)
    (payload : List (List ZoneData))
    (h : update st (some (some payload)) = (st', none)) :
    (∀ k, (lookupA st.zones k).isSome → (lookupA st'.zones k).isSome) ∧
    (∀ sid, (lookupA st.systems sid).isSome → (lookupA st'.systems sid).isSome) ∧
    (∀ k z', lookupA st'.zones k = some z' →
      (z'.available = true ↔ zonePresentIn payload k)) ∧
    (∀ sid s', lookupA st'.systems sid = some s' →
      (s'.available = true ↔ sysPresentIn payload sid)) := by
  simp only [update] at h
  rcases hq : parseAll (sweepUnavailable st) payload with ⟨st2, oe2⟩
  rw [hq] at h
  cases oe2 with
  | some e =>
    injection h with h1 h2
    simp at h2
  | none =>
    injection h with h1 h2
    have hpa := parseAll_avail payload (sweepUnavailable st) st2 hq
    subst h1
    refine ⟨?_, ?_, ?_, ?_⟩
    · intro k hk
      show (lookupA st2.zones k).isSome
      by_cases hp : zonePresentIn payload k
      · obtain ⟨z', hz', -⟩ := (hpa.1 k).1 hp
        rw [hz']
        rfl
      · rw [isSome_of_map_eq _ _ _ ((hpa.1 k).2 hp),
          (sweepUnavailable_lookup st k 0).1]
        simpa using hk
    · intro sid hk
      show (lookupA st2.systems sid).isSome
      by_cases hp : sysPresentIn payload sid
      · obtain ⟨s', hs', -⟩ := (hpa.2 sid).1 hp
        rw [hs']
        rfl
      · rw [isSome_of_map_eq _ _ _ ((hpa.2 sid).2 hp),
          (sweepUnavailable_lookup st (0, 0) sid).2.1]
        simpa using hk
    · intro k z' hz'
      replace hz' : lookupA st2.zones k = some z' := hz'
      by_cases hp : zonePresentIn payload k
      · obtain ⟨z2, hz2, hav⟩ := (hpa.1 k).1 hp
        rw [hz2] at hz'
        injection hz' with hz'
        subst hz'
        simp [hav, hp]
      · have h1 := (hpa.1 k).2 hp
        rw [hz', (sweepUnavailable_lookup st k 0).1] at h1
        rcases hlk : lookupA st.zones k with _ | w
        · rw [hlk] at h1
          simp at h1
        · rw [hlk] at h1
          simp at h1
          rw [h1]
          simp [hp]
    · intro sid s' hs'
      replace hs' : lookupA st2.systems sid = some s' := hs'
      by_cases hp : sysPresentIn payload sid
      · obtain ⟨s2, hs2, hav⟩ := (hpa.2 sid).1 hp
        rw [hs2] at hs'
        injection hs' with hs'
        subst hs'
        simp [hav, hp]
      · have h1 := (hpa.2 sid).2 hp
        rw [hs', (sweepUnavailable_lookup st (0, 0) sid).2.1] at h1
        rcases hlk : lookupA st.systems sid with _ | w
        · rw [hlk] at h1
          simp at h1
        · rw [hlk] at h1
          simp at h1
          rw [h1]
          simp [hp]

end Aioairzone

namespace Aioairzone

/-- Witness for C3: the master/slave fixture poll completes from a fresh
state, and the theorem applies to it. -/
theorem availability_reconciliation_witness :
    update AirzoneState.initial (some (some [[c1Master, c1Slave]])) = (c1Poll.1, none) ∧
    ((lookupA AirzoneState.initial.zones (1, 1)).isSome →
      (lookupA c1Poll.1.zones (1, 1)).isSome) := by
  have hu : update AirzoneState.initial (some (some [[c1Master, c1Slave]])) =
      (c1Poll.1, none) := by
    rfl
  exact ⟨hu,
    (availability_reconciliation AirzoneState.initial c1Poll.1 [[c1Master, c1Slave]] hu).1 (1, 1)⟩

end Aioairzone

namespace Aioairzone

/-- A propagation step only rewrites the zone it was invoked on. -/
theorem uzfmz_step_other (st : AirzoneState) (k0 : ZoneKey) (st' : AirzoneState)
    (h : uzfmz_step st k0 = .ok st') :
    st'.systems = st.systems ∧
    ∀ k, k ≠ k0 → lookupA st'.zones k = lookupA st.zones k := by
  unfold uzfmz_step at h
  repeat' split at h
  all_goals
    first
      | exact Except.noConfusion h
      | (injection h with h
         subst h
         first
           | exact ⟨rfl, fun _ _ => rfl⟩
           | exact ⟨rfl, fun k hk => lookupA_updateFirst_other _ _ _ _ hk⟩)

/-- A master-flagged zone is never rewritten by a propagation step. -/
theorem uzfmz_step_master (st : AirzoneState) (k0 km : ZoneKey) (st' : AirzoneState)
    (mz : Zone) (h : uzfmz_step st k0 = .ok st')
    (hmz : lookupA st.zones km = some mz) (hm : mz.master = true) :
    lookupA st'.zones km = some mz := by
  by_cases hk : km = k0
  · subst hk
    unfold uzfmz_step at h
    rw [hmz] at h
    dsimp only at h
    rw [if_pos hm] at h
    injection h with h
    exact h ▸ hmz
  · rw [(uzfmz_step_other st k0 st' h).2 km hk]
    exact hmz

/-- A key bound in an association list occurs among its keys. -/
theorem lookupA_mem_keys {κ α : Type} [DecidableEq κ] (l : List (κ × α)) (k : κ) (v : α)
    (h : lookupA l k = some v) : k ∈ l.map Prod.fst := by
  induction l with
  | nil =>
    rw [lookupA_nil] at h
    exact Option.noConfusion h
  | cons p ps ih =>
    rw [lookupA_cons] at h
    by_cases hp : p.1 = k
    · exact List.mem_map.mpr ⟨p, List.mem_cons_self _ _, hp⟩
    · rw [if_neg hp] at h
      exact List.mem_cons_of_mem _ (ih h)

/-- `Zone.get_modes` always reports `STOP`. -/
theorem stop_mem_get_modes (z : Zone) : OperationMode.STOP ∈ z.get_modes := by
  unfold Zone.get_modes
  dsimp only
  split <;> split <;> first | assumption | simp

/-- `Zone.get_modes` is never empty. -/
theorem get_modes_length_pos (z : Zone) : 0 < z.get_modes.length :=
  List.length_pos_of_mem (stop_mem_get_modes z)

end Aioairzone

namespace Aioairzone

/-- Through a successful propagation loop, a slave zone with no explicit
master zone id whose owning System has a non-empty mode list ends up with
exactly that list (once its key is processed), its other fields
untouched. -/
theorem uzfmzGo_inherit_sys (ks : List ZoneKey) (st st' : AirzoneState) (k : ZoneKey)
    (z : Zone) (sys : System)
    (hgo : uzfmzGo st ks = (st', none))
    (hz : lookupA st.zones k = some z) (hm : z.master = false)
    (hmn : z.masterZone = none)
    (hsys : lookupA st.systems z.systemId = some sys)
    (hlen : 0 < sys.modes.length) :
    ∃ z', lookupA st'.zones k = some z' ∧ zoneShell z' = zoneShell z ∧
      (k ∈ ks → z'.modes = sys.modes) ∧ (k ∉ ks → z'.modes = z.modes) := by
  induction ks generalizing st z with
  | nil =>
    unfold uzfmzGo at hgo
    injection hgo with h1 h2
    subst h1
    exact ⟨z, hz, rfl, fun hk => absurd hk (List.not_mem_nil k), fun _ => rfl⟩
  | cons k0 ks ih =>
    unfold uzfmzGo at hgo
    split at hgo
    · rename_i st1 heq
      by_cases hk : k0 = k
      · subst hk
        unfold uzfmz_step at heq
        rw [hz] at heq
        dsimp only at heq
        rw [hm] at heq
        rw [if_neg Bool.false_ne_true] at heq
        rw [hmn] at heq
        dsimp only at heq
        rw [hsys] at heq
        dsimp only at heq
        rw [if_pos hlen] at heq
        injection heq with heq
        subst heq
        have hz1 : lookupA
            (updateFirst st.zones k0 (fun w => { w with modes := sys.modes })) k0 =
            some { z with modes := sys.modes } := by
          rw [lookupA_updateFirst_self, hz]
          rfl
        obtain ⟨z', hz', hsh, hin, hnin⟩ := ih _ _ hgo hz1 hm hmn hsys
        refine ⟨z', hz', ?_, ?_, ?_⟩
        · rw [hsh]
          exact rfl
        · intro _
          by_cases hks : k0 ∈ ks
          · exact hin hks
          · exact hnin hks
        · intro habs
          exact absurd (List.mem_cons_self k0 ks) habs
      · have hloc := uzfmz_step_other st k0 st1 heq
        have hz1 : lookupA st1.zones k = some z := by
          rw [hloc.2 k (fun hc => hk hc.symm)]
          exact hz
        have hsys1 : lookupA st1.systems z.systemId = some sys := by
          rw [hloc.1]
          exact hsys
        obtain ⟨z', hz', hsh, hin, hnin⟩ := ih _ _ hgo hz1 hm hmn hsys1
        refine ⟨z', hz', hsh, ?_, ?_⟩
        · intro hmem
          rcases List.mem_cons.mp hmem with h1 | h1
          · exact absurd h1.symm hk
          · exact hin h1
        · intro hnm
          exact hnin (fun hc => hnm (List.mem_cons_of_mem _ hc))
    · rename_i e heq
      injection hgo with h1 h2
      exact Option.noConfusion h2

/-- Through a successful propagation loop, a slave zone with an explicit
master zone id pointing at a master-flagged zone ends up with that
master's `get_modes()` list (once its key is processed), its other fields
untouched. -/
theorem uzfmzGo_inherit_master (ks : List ZoneKey) (st st' : AirzoneState) (k : ZoneKey)
    (mid : Int) (z mz : Zone)
    (hgo : uzfmzGo st ks = (st', none))
    (hz : lookupA st.zones k = some z) (hm : z.master = false)
    (hmn : z.masterZone = some mid)
    (hmz : lookupA st.zones (z.systemId, mid) = some mz) (hm2 : mz.master = true) :
    ∃ z', lookupA st'.zones k = some z' ∧ zoneShell z' = zoneShell z ∧
      (k ∈ ks → z'.modes = mz.get_modes) ∧ (k ∉ ks → z'.modes = z.modes) := by
  induction ks generalizing st z with
  | nil =>
    unfold uzfmzGo at hgo
    injection hgo with h1 h2
    subst h1
    exact ⟨z, hz, rfl, fun hk => absurd hk (List.not_mem_nil k), fun _ => rfl⟩
  | cons k0 ks ih =>
    unfold uzfmzGo at hgo
    split at hgo
    · rename_i st1 heq
      by_cases hk : k0 = k
      · subst hk
        have hne : (z.systemId, mid) ≠ k0 := by
          intro hc
          rw [hc] at hmz
          have hzz := hz.symm.trans hmz
          injection hzz with hzz
          rw [← hzz] at hm2
          rw [hm] at hm2
          exact Bool.false_ne_true hm2
        unfold uzfmz_step at heq
        rw [hz] at heq
        dsimp only at heq
        rw [hm] at heq
        rw [if_neg Bool.false_ne_true] at heq
        rw [hmn] at heq
        dsimp only at heq
        rw [hmz] at heq
        dsimp only at heq
        rw [if_pos (get_modes_length_pos mz)] at heq
        injection heq with heq
        subst heq
        have hz1 : lookupA
            (updateFirst st.zones k0 (fun w => { w with modes := mz.get_modes })) k0 =
            some { z with modes := mz.get_modes } := by
          rw [lookupA_updateFirst_self, hz]
          rfl
        have hmz1 : lookupA
            (updateFirst st.zones k0 (fun w => { w with modes := mz.get_modes }))
            (z.systemId, mid) = some mz := by
          rw [lookupA_updateFirst_other _ _ _ _ hne]
          exact hmz
        obtain ⟨z', hz', hsh, hin, hnin⟩ := ih _ _ hgo hz1 hm hmn hmz1
        refine ⟨z', hz', ?_, ?_, ?_⟩
        · rw [hsh]
          exact rfl
        · intro _
          by_cases hks : k0 ∈ ks
          · exact hin hks
          · exact hnin hks
        · intro habs
          exact absurd (List.mem_cons_self k0 ks) habs
      · have hloc := uzfmz_step_other st k0 st1 heq
        have hz1 : lookupA st1.zones k = some z := by
          rw [hloc.2 k (fun hc => hk hc.symm)]
          exact hz
        have hmz1 : lookupA st1.zones (z.systemId, mid) = some mz :=
          uzfmz_step_master st k0 (z.systemId, mid) st1 mz heq hmz hm2
        obtain ⟨z', hz', hsh, hin, hnin⟩ := ih _ _ hgo hz1 hm hmn hmz1
        refine ⟨z', hz', hsh, ?_, ?_⟩
        · intro hmem
          rcases List.mem_cons.mp hmem with h1 | h1
          · exact absurd h1.symm hk
          · exact hin h1
        · intro hnm
          exact hnin (fun hc => hnm (List.mem_cons_of_mem _ hc))
    · rename_i e heq
      injection hgo with h1 h2
      exact Option.noConfusion h2

end Aioairzone

namespace Aioairzone

/-- The state of the C1 scenario after the merge loop, before master/slave
propagation runs. -/
def c1Mid : AirzoneState :=
  [c1Master, c1Slave].foldl parse_zone_entry (sweepUnavailable AirzoneState.initial)

/-- The slave zone of the C1 scenario as stored before propagation. -/
def c1SlaveZ : Zone := (lookupA c1Mid.zones (1, 2)).getD (Zone.init 1 2 c1Slave)

/-- The owning System of the C1 scenario as stored before propagation. -/
def c1Sys : System := (lookupA c1Mid.systems 1).getD { available := false, modes := [] }

/-- C1: after a successful master/slave propagation pass, a slave zone
with no explicit master zone id takes its mode list from its owning
System (when the System's list is non-empty), and one with an explicit
master zone id pointing at a master-flagged zone takes that master's
`get_modes()`; `get_modes()` always reports `STOP`, appending it at the
end exactly when absent from the underlying list; and in the concrete
one-master-one-slave scenario the slave's `get_modes()` comes out as
`[COOLING, HEATING, AUTO, STOP]`. -/
theorem slave_mode_inheritance :
    (∀ z : Zone, OperationMode.STOP ∈ z.get_modes ∧
      (OperationMode.STOP ∈ (if z.modes.length = 0 then [z.mode] else z.modes) →
        z.get_modes = (if z.modes.length = 0 then [z.mode] else z.modes)) ∧
      (OperationMode.STOP ∉ (if z.modes.length = 0 then [z.mode] else z.modes) →
        z.get_modes =
          (if z.modes.length = 0 then [z.mode] else z.modes) ++ [OperationMode.STOP])) ∧
    (∀ (st st' : AirzoneState) (k : ZoneKey) (z : Zone) (sys : System),
      update_zones_from_master_zone st = (st', none) →
      lookupA st.zones k = some z → z.master = false → z.masterZone = none →
      lookupA st.systems z.systemId = some sys → 0 < sys.modes.length →
      ∃ z', lookupA st'.zones k = some z' ∧ zoneShell z' = zoneShell z ∧
        z'.modes = sys.modes) ∧
    (∀ (st st' : AirzoneState) (k : ZoneKey) (mid : Int) (z mz : Zone),
      update_zones_from_master_zone st = (st', none) →
      lookupA st.zones k = some z → z.master = false → z.masterZone = some mid →
      lookupA st.zones (z.systemId, mid) = some mz → mz.master = true →
      ∃ z', lookupA st'.zones k = some z' ∧ zoneShell z' = zoneShell z ∧
        z'.modes = mz.get_modes) ∧
    (lookupA c1Poll.1.zones (1, 2)).map Zone.get_modes =
      some [OperationMode.COOLING, OperationMode.HEATING, OperationMode.AUTO,
        OperationMode.STOP] := by
  refine ⟨?_, ?_, ?_, ?_⟩
  · intro z
    refine ⟨stop_mem_get_modes z, ?_, ?_⟩
    · intro h
      unfold Zone.get_modes
      dsimp only
      rw [if_pos h]
    · intro h
      unfold Zone.get_modes
      dsimp only
      rw [if_neg h]
  · intro st st' k z sys hgo hz hm hmn hsys hlen
    unfold update_zones_from_master_zone at hgo
    obtain ⟨z', hz', hsh, hin, -⟩ :=
      uzfmzGo_inherit_sys (st.zones.map Prod.fst) st st' k z sys hgo hz hm hmn hsys hlen
    exact ⟨z', hz', hsh, hin (lookupA_mem_keys st.zones k z hz)⟩
  · intro st st' k mid z mz hgo hz hm hmn hmz hm2
    unfold update_zones_from_master_zone at hgo
    obtain ⟨z', hz', hsh, hin, -⟩ :=
      uzfmzGo_inherit_master (st.zones.map Prod.fst) st st' k mid z mz hgo hz hm hmn hmz hm2
    exact ⟨z', hz', hsh, hin (lookupA_mem_keys st.zones k z hz)⟩
  · rfl

end Aioairzone

namespace Aioairzone

/-- Witness for C1: the inheritance clause applied to the concrete
pre-propagation state of the one-master-one-slave scenario, with every
hypothesis evaluated, plus the always-STOP clause at a concrete zone. -/
theorem slave_mode_inheritance_witness :
    OperationMode.STOP ∈ zoneFix.get_modes ∧
    (lookupA (update_zones_from_master_zone c1Mid).1.zones (1, 2)).map Zone.modes =
      some c1Sys.modes := by
  refine ⟨(slave_mode_inheritance.1 zoneFix).1, ?_⟩
  obtain ⟨z', hz', -, hmod⟩ := slave_mode_inheritance.2.1 c1Mid
    (update_zones_from_master_zone c1Mid).1 (1, 2) c1SlaveZ c1Sys rfl rfl rfl rfl rfl
    (by decide)
  rw [hz']
  exact congrArg some hmod

end Aioairzone
